import Mathlib

/-!
Shallow embedding of the CS104 slave (server) core of lib60870-C, file
src/lib60870-C/src/iec60870/cs104/cs104_slave.c, together with theorems
checking the natural-language specification against it.

Modelling conventions:
- Pointers into the two ring buffers are modelled as byte offsets from the
  buffer base; the buffer content relevant to the claims, namely the
  per-entry header records, is a total map from offsets to header records.
  Payload bytes are opaque and not modelled.
- C int counters that are always non-negative are modelled as Nat; the
  k-buffer indices oldestSentASDU and newestSentASDU, which use -1 as an
  empty marker, are modelled as Int. Sequence numbers handed to
  checkSequenceNumber are Int, as in the C source.
- External effects are oracles: socket write results are Int parameters
  (the value returned by writeToSocket), socket reads consume a list of
  ReadResult values, and the ASDU dispatch of handleASDU, which the
  specification treats as an external collaborator, is a function
  parameter. Functions that emit frames also return the list of frames
  handed to writeToSocket, so that emission is observable.
-/

namespace CS104

/-- State values of a low-priority message queue entry, enum
QueueEntryState in cs104_slave.c. -/
inductive QueueEntryState where
  | NOT_USED_OR_CONFIRMED
  | WAITING_FOR_TRANSMISSION
  | SENT_BUT_NOT_CONFIRMED
  deriving Repr, DecidableEq

/-- Header record stored in front of every queue entry, struct
sMessageQueueEntryInfo: entry timestamp, entry state and payload size. -/
structure MessageQueueEntryInfo where
  entryTimestamp : Nat
  entryState : QueueEntryState
  size : Nat
  deriving Repr, DecidableEq

/-- Size in bytes of struct sMessageQueueEntryInfo (an 8-byte uint64_t
followed by a 4-byte bit field, padded to 8-byte alignment). -/
def sizeofEntryInfo : Nat := 16

/-- Length of the APCI header, IEC60870_5_104_APCI_LENGTH. -/
def IEC60870_5_104_APCI_LENGTH : Nat := 6

/-- Low-priority message queue, struct sMessageQueue. The field buffer of
the C struct is represented by the map store from byte offsets to entry
header records; the three cursors firstEntry, lastEntry and
lastInBufferEntry are byte offsets. The C code dereferences the cursors
only when entryCounter is nonzero, so the NULL value of the pointers needs
no separate representation. -/
structure MessageQueue where
  size : Nat
  entryCounter : Int
  firstEntry : Nat
  lastEntry : Nat
  lastInBufferEntry : Nat
  oldestTimestamp : Nat
  store : Nat → MessageQueueEntryInfo

/-- Eviction loop of MessageQueue_enqueueASDU (the while loop that removes
old entries until the new ASDU fits). One fuel unit is spent per
iteration; the C loop terminates because every iteration either lowers
entryCounter or leaves the loop, so fuel entryCounter + 1 is enough. -/
def MessageQueue_evictLoop (entrySize nextMsgPtr currentTimestamp : Nat) :
    Nat → MessageQueue → MessageQueue
  | 0, self => self
  | fuel + 1, self =>
    if nextMsgPtr + entrySize > self.firstEntry ∧ self.entryCounter > 0 then
      if self.firstEntry ≠ self.lastEntry then
        if self.firstEntry ≠ self.lastInBufferEntry then
          let entryInfo := self.store self.firstEntry
          let self := { self with
            firstEntry := self.firstEntry + sizeofEntryInfo + entryInfo.size,
            entryCounter := self.entryCounter - 1 }
          MessageQueue_evictLoop entrySize nextMsgPtr currentTimestamp fuel self
        else
          let self := { self with firstEntry := 0 }
          let entryInfo := self.store self.firstEntry
          { self with
            oldestTimestamp := entryInfo.entryTimestamp,
            entryCounter := self.entryCounter - 1 }
      else
        let self := { self with
          firstEntry := nextMsgPtr,
          oldestTimestamp := currentTimestamp,
          lastInBufferEntry := nextMsgPtr,
          entryCounter := 0 }
        MessageQueue_evictLoop entrySize nextMsgPtr currentTimestamp fuel self
    else self

/-- MessageQueue_enqueueASDU. The ASDU payload is abstracted to its
encoded size asduSize; currentTimestamp stands for Hal_getTimeInMs().
Returns false (and the unchanged queue) exactly on the early
ASDU-too-large return of the C code, true otherwise. -/
def MessageQueue_enqueueASDU (self : MessageQueue) (asduSize : Nat)
    (currentTimestamp : Nat) : Bool × MessageQueue :=
  if asduSize > 256 - IEC60870_5_104_APCI_LENGTH then (false, self)
  else
    let entrySize := sizeofEntryInfo + asduSize
    let stage1 : MessageQueue × Nat :=
      if self.entryCounter = 0 then
        ({ self with firstEntry := 0, oldestTimestamp := currentTimestamp,
                     lastInBufferEntry := 0 }, 0)
      else
        let entryInfo := self.store self.lastEntry
        (self, self.lastEntry + sizeofEntryInfo + entryInfo.size)
    let self := stage1.1
    let nextMsgPtr := stage1.2
    let stage2 : MessageQueue × Nat :=
      if nextMsgPtr + entrySize > self.size then
        ({ self with lastInBufferEntry := self.lastEntry }, 0)
      else (self, nextMsgPtr)
    let self := stage2.1
    let nextMsgPtr := stage2.2
    let self :=
      if self.entryCounter > 0 then
        if nextMsgPtr ≤ self.firstEntry then
          MessageQueue_evictLoop entrySize nextMsgPtr currentTimestamp
            (self.entryCounter.toNat + 1) self
        else { self with lastInBufferEntry := nextMsgPtr }
      else self
    let self := { self with lastEntry := nextMsgPtr,
                            entryCounter := self.entryCounter + 1 }
    let newInfo : MessageQueueEntryInfo :=
      ⟨currentTimestamp, QueueEntryState.WAITING_FOR_TRANSMISSION, asduSize⟩
    let self := { self with store := Function.update self.store nextMsgPtr newInfo }
    (true, self)

/-- Walk of MessageQueue_getNextWaitingASDU: starting from an entry
offset, advance until an entry in state WAITING_FOR_TRANSMISSION is found
or lastEntry is reached, and return the final offset. Fuel bounds the
number of visited entries. -/
def MessageQueue_findWaiting (self : MessageQueue) :
    Nat → Nat → Nat
  | 0, entryPtr => entryPtr
  | fuel + 1, entryPtr =>
    let entryInfo := self.store entryPtr
    if entryInfo.entryState ≠ QueueEntryState.WAITING_FOR_TRANSMISSION then
      if entryPtr = self.lastEntry then entryPtr
      else
        let next := if entryPtr = self.lastInBufferEntry then 0
                    else entryPtr + sizeofEntryInfo + entryInfo.size
        MessageQueue_findWaiting self fuel next
    else entryPtr

/-- MessageQueue_getNextWaitingASDU. On success returns the found entry as
a triple of its timestamp, its offset (the opaque queueEntry handle
returned to the caller) and its payload size, and flips the entry state in
the store to SENT_BUT_NOT_CONFIRMED, exactly as the memcpy write-back of
the C code does. -/
def MessageQueue_getNextWaitingASDU (self : MessageQueue) :
    Option (Nat × Nat × Nat) × MessageQueue :=
  if self.entryCounter ≠ 0 then
    let entryPtr := MessageQueue_findWaiting self self.entryCounter.toNat self.firstEntry
    let entryInfo := self.store entryPtr
    if entryInfo.entryState = QueueEntryState.WAITING_FOR_TRANSMISSION then
      let sentInfo := { entryInfo with
        entryState := QueueEntryState.SENT_BUT_NOT_CONFIRMED }
      (some (entryInfo.entryTimestamp, entryPtr, entryInfo.size),
       { self with store := Function.update self.store entryPtr sentInfo })
    else (none, self)
  else (none, self)

/-- Loop of MessageQueue_setWaitingForTransmissionWhenNotConfirmed. The C
loop copies each entry header into the local variable entryInfo, flips the
state of the local copy when it is SENT_BUT_NOT_CONFIRMED, and advances;
it contains no memcpy writing the local copy back into the buffer, so the
store is never modified. The discarded let binding mirrors the dead store
of the C code. -/
def MessageQueue_revertWalk (self : MessageQueue) :
    Nat → Nat → MessageQueue
  | 0, _ => self
  | fuel + 1, entryPtr =>
    let entryInfo := self.store entryPtr
    let _localCopy :=
      if entryInfo.entryState = QueueEntryState.SENT_BUT_NOT_CONFIRMED then
        { entryInfo with entryState := QueueEntryState.WAITING_FOR_TRANSMISSION }
      else entryInfo
    if entryPtr = self.lastEntry then self
    else
      let next := if entryPtr = self.lastInBufferEntry then 0
                  else entryPtr + sizeofEntryInfo + entryInfo.size
      MessageQueue_revertWalk self fuel next

/-- MessageQueue_setWaitingForTransmissionWhenNotConfirmed. -/
def MessageQueue_setWaitingForTransmissionWhenNotConfirmed
    (self : MessageQueue) : MessageQueue :=
  if self.entryCounter ≠ 0 then
    MessageQueue_revertWalk self self.entryCounter.toNat self.firstEntry
  else self

/-- MessageQueue_markAsduAsConfirmed. The C code copies the entry header
into the local variable entryInfo and sets the state of the local copy to
NOT_USED_OR_CONFIRMED, but contains no memcpy writing the local copy back
into the buffer; the discarded let binding mirrors that dead store. -/
def MessageQueue_markAsduAsConfirmed (self : MessageQueue)
    (queueEntry : Nat) (timestamp : Nat) : MessageQueue :=
  if self.entryCounter > 0 then
    if timestamp ≥ self.oldestTimestamp then
      let entryInfo := self.store queueEntry
      let _localCopy :=
        { entryInfo with entryState := QueueEntryState.NOT_USED_OR_CONFIRMED }
      self
    else self
  else self

/-- High-priority queue, struct sHighPriorityASDUQueue, restricted to the
cursor fields; its buffer content is not needed by any claim. -/
structure HighPriorityASDUQueue where
  size : Nat
  entryCounter : Int
  firstEntry : Nat
  lastEntry : Nat
  lastInBufferEntry : Nat
  deriving Repr, DecidableEq

/-- HighPriorityASDUQueue_resetConnectionQueue. -/
def HighPriorityASDUQueue_resetConnectionQueue (self : HighPriorityASDUQueue) :
    HighPriorityASDUQueue :=
  { self with firstEntry := 0, lastEntry := 0, lastInBufferEntry := 0,
              entryCounter := 0 }

/-- Entry of the k-buffer, typedef SentASDUSlave: entry time and opaque
queueEntry handle of the low-priority queue entry (none when the ASDU did
not come from the low-priority queue), send time and sequence number. -/
structure SentASDUSlave where
  entryTime : Nat
  queueEntry : Option Nat
  sentTime : Nat
  seqNo : Int
  deriving Repr, DecidableEq

/-- Default value used for out-of-range k-buffer reads; the C code never
indexes sentASDUs out of range in the modelled paths. -/
def noSentASDU : SentASDUSlave := ⟨0, none, 0, 0⟩

/-- Connection parameters, struct sCS104_APCIParameters. -/
structure CS104_APCIParameters where
  k : Nat
  w : Nat
  t0 : Nat
  t1 : Nat
  t2 : Nat
  t3 : Nat
  deriving Repr, DecidableEq

/-- Default connection parameters, defaultConnectionParameters. -/
def defaultConnectionParameters : CS104_APCIParameters :=
  ⟨12, 8, 10, 15, 10, 20⟩

/-- Value of UINT64_MAX, the no-obligation marker of
lastConfirmationTime. -/
def UINT64_MAX : Nat := 2 ^ 64 - 1

/-- Per-session state, struct sMasterConnection, restricted to the fields
the protocol logic reads and writes. The socket, TLS and thread handles
are external. conParameters stands for the read-only access path
self.slave.conParameters of the C code. The bound queues are held by
value; in the C code they are pointers, possibly shared among
connections, but every queue operation used by the claims is shown to be
either local to one call site or the identity, so aliasing is not
observable in the properties proved here. -/
structure MasterConnection where
  isUsed : Bool
  isActive : Bool
  isRunning : Bool
  timeoutT2Triggered : Bool
  outstandingTestFRConMessages : Nat
  maxSentASDUs : Nat
  oldestSentASDU : Int
  newestSentASDU : Int
  sendCount : Nat
  receiveCount : Nat
  unconfirmedReceivedIMessages : Nat
  lastConfirmationTime : Nat
  nextT3Timeout : Nat
  sentASDUs : List SentASDUSlave
  recvBuffer : Nat → Nat
  recvBufPos : Nat
  lowPrioQueue : MessageQueue
  highPrioQueue : HighPriorityASDUQueue
  redundancyGroup : Nat
  conParameters : CS104_APCIParameters

/-- Frame constant STARTDT_CON_MSG. -/
def STARTDT_CON_MSG : List Nat := [0x68, 0x04, 0x0b, 0x00, 0x00, 0x00]

/-- Frame constant STOPDT_CON_MSG. -/
def STOPDT_CON_MSG : List Nat := [0x68, 0x04, 0x23, 0x00, 0x00, 0x00]

/-- Frame constant TESTFR_CON_MSG. -/
def TESTFR_CON_MSG : List Nat := [0x68, 0x04, 0x83, 0x00, 0x00, 0x00]

/-- Frame constant TESTFR_ACT_MSG. -/
def TESTFR_ACT_MSG : List Nat := [0x68, 0x04, 0x43, 0x00, 0x00, 0x00]

/-- sendIMessage. The six APCI header bytes are assembled from the current
counters exactly as in the C code; payload stands for the ASDU bytes
already placed after the header in the send buffer. wres is the value
returned by writeToSocket. Returns the updated connection, the frame
handed to the socket, and the value the C function returns, namely the
final sendCount. -/
def sendIMessage (self : MasterConnection) (payload : List Nat)
    (msgSize : Nat) (wres : Int) : MasterConnection × List Nat × Nat :=
  let frame := [0x68, msgSize - 2,
    (self.sendCount % 128) * 2, self.sendCount / 128,
    (self.receiveCount % 128) * 2, self.receiveCount / 128] ++ payload
  let self :=
    if wres > 0 then
      { self with sendCount := (self.sendCount + 1) % 32768,
                  unconfirmedReceivedIMessages := 0,
                  timeoutT2Triggered := false }
    else { self with isRunning := false }
  let self := { self with unconfirmedReceivedIMessages := 0 }
  (self, frame, self.sendCount)

/-- Frame assembled by sendSMessage from the current receiveCount. -/
def sMessageFrame (self : MasterConnection) : List Nat :=
  [0x68, 0x04, 0x01, 0, (self.receiveCount % 128) * 2,
   self.receiveCount / 128]

/-- sendSMessage. wres is the value returned by writeToSocket; a negative
value clears isRunning. Returns the updated connection and the frame
handed to the socket. -/
def sendSMessage (self : MasterConnection) (wres : Int) :
    MasterConnection × List Nat :=
  let frame := sMessageFrame self
  (if wres < 0 then { self with isRunning := false } else self, frame)

/-- Confirmation loop of checkSequenceNumber (the do-while over the
k-buffer). Returns the updated connection and, appended to acc, the
arguments of every MessageQueue_markAsduAsConfirmed call made, as pairs of
queueEntry offset and entry time. Fuel bounds the iterations; the C loop
terminates because oldestSentASDU advances every iteration until it meets
newestSentASDU + 1. -/
def checkSeqNoLoop (seqNo oldestValidSeqNo : Int)
    (counterOverflowDetected : Bool) :
    Nat → MasterConnection → List (Nat × Nat) →
    MasterConnection × List (Nat × Nat)
  | 0, self, acc => (self, acc)
  | fuel + 1, self, acc =>
    let entry := self.sentASDUs.getD self.oldestSentASDU.toNat noSentASDU
    let oldestAsduSeqNo := entry.seqNo
    if counterOverflowDetected = false ∧ seqNo < oldestAsduSeqNo then
      (self, acc)
    else if seqNo = oldestValidSeqNo then (self, acc)
    else
      let step : MasterConnection × List (Nat × Nat) :=
        match entry.queueEntry with
        | some q =>
          let confirmed :=
            MessageQueue_markAsduAsConfirmed self.lowPrioQueue q entry.entryTime
          ({ self with lowPrioQueue := confirmed }, acc ++ [(q, entry.entryTime)])
        | none => (self, acc)
      let self := step.1
      let acc := step.2
      if oldestAsduSeqNo = seqNo then
        if self.oldestSentASDU = self.newestSentASDU then
          ({ self with oldestSentASDU := -1 }, acc)
        else
          ({ self with oldestSentASDU :=
              (self.oldestSentASDU + 1) % (self.maxSentASDUs : Int) }, acc)
      else
        let self := { self with oldestSentASDU :=
            (self.oldestSentASDU + 1) % (self.maxSentASDUs : Int) }
        let checkIndex := (self.newestSentASDU + 1) % (self.maxSentASDUs : Int)
        if self.oldestSentASDU = checkIndex then
          ({ self with oldestSentASDU := -1 }, acc)
        else
          checkSeqNoLoop seqNo oldestValidSeqNo counterOverflowDetected
            fuel self acc

/-- checkSequenceNumber. Returns the validity flag, the updated connection
and the list of MessageQueue_markAsduAsConfirmed calls made (queueEntry
offset and entry time of each confirmed k-buffer entry). -/
def checkSequenceNumber (self : MasterConnection) (seqNo : Int) :
    Bool × MasterConnection × List (Nat × Nat) :=
  if self.oldestSentASDU = -1 then
    if seqNo = (self.sendCount : Int) then (true, self, [])
    else (false, self, [])
  else
    let oldestAsduSeqNo :=
      (self.sentASDUs.getD self.oldestSentASDU.toNat noSentASDU).seqNo
    let newestAsduSeqNo :=
      (self.sentASDUs.getD self.newestSentASDU.toNat noSentASDU).seqNo
    let rangeCheck : Bool × Bool :=
      if oldestAsduSeqNo ≤ newestAsduSeqNo then
        (decide (oldestAsduSeqNo ≤ seqNo ∧ seqNo ≤ newestAsduSeqNo), false)
      else
        (decide (seqNo ≥ oldestAsduSeqNo ∨ seqNo ≤ newestAsduSeqNo), true)
    let counterOverflowDetected := rangeCheck.2
    let oldestValidSeqNo :=
      if oldestAsduSeqNo = 0 then (32767 : Int)
      else (oldestAsduSeqNo - 1) % 32768
    let seqNoIsValid := rangeCheck.1 || decide (oldestValidSeqNo = seqNo)
    if seqNoIsValid then
      let r := checkSeqNoLoop seqNo oldestValidSeqNo counterOverflowDetected
        (self.maxSentASDUs + 1) self []
      (true, r.1, r.2)
    else (false, self, [])

/-- resetT3Timeout. -/
def resetT3Timeout (self : MasterConnection) (currentTime : Nat) :
    MasterConnection :=
  { self with nextT3Timeout := currentTime + self.conParameters.t3 * 1000 }

/-- checkT3Timeout. Clamps an implausible nextT3Timeout, then reports
whether T3 has expired; returns the flag and the possibly updated
connection. -/
def checkT3Timeout (self : MasterConnection) (currentTime : Nat) :
    Bool × MasterConnection :=
  let self :=
    if self.nextT3Timeout > currentTime + self.conParameters.t3 * 1000 then
      resetT3Timeout self currentTime
    else self
  (decide (currentTime > self.nextT3Timeout), self)

/-- T3 paragraph of handleTimeouts. wres is the writeToSocket result for
the TESTFR_ACT frame. Returns timeoutsOk, the updated connection and the
emitted frames. -/
def handleTimeoutsT3 (self : MasterConnection) (currentTime : Nat)
    (wres : Int) : Bool × MasterConnection × List (List Nat) :=
  let r := checkT3Timeout self currentTime
  let self := r.2
  if r.1 then
    if self.outstandingTestFRConMessages > 2 then (false, self, [])
    else
      let self := if wres < 0 then { self with isRunning := false } else self
      let self := { self with
        outstandingTestFRConMessages := self.outstandingTestFRConMessages + 1 }
      (true, resetT3Timeout self currentTime, [TESTFR_ACT_MSG])
  else (true, self, [])

/-- T2 paragraph of handleTimeouts (confirmation timeout for received I
messages), including the clamp of a lastConfirmationTime lying in the
future. wres is the writeToSocket result for the S frame. -/
def handleTimeoutsT2 (self : MasterConnection) (currentTime : Nat)
    (wres : Int) : MasterConnection × List (List Nat) :=
  if self.unconfirmedReceivedIMessages > 0 then
    let self :=
      if self.lastConfirmationTime ≠ UINT64_MAX ∧
          self.lastConfirmationTime > currentTime then
        { self with lastConfirmationTime := currentTime }
      else self
    if currentTime > self.lastConfirmationTime then
      if currentTime - self.lastConfirmationTime ≥
          self.conParameters.t2 * 1000 then
        let self := { self with lastConfirmationTime := currentTime,
                                unconfirmedReceivedIMessages := 0,
                                timeoutT2Triggered := false }
        let r := sendSMessage self wres
        (r.1, [r.2])
      else (self, [])
    else (self, [])
  else (self, [])

/-- T1 paragraph of handleTimeouts (acknowledge timeout for sent I
messages). The C code nests the clamp of a sentTime lying in the future
inside the test currentTime > sentTime, which the embedding reproduces
verbatim. Returns timeoutsOk and the updated connection. -/
def handleTimeoutsT1 (self : MasterConnection) (currentTime : Nat) :
    Bool × MasterConnection :=
  if self.oldestSentASDU ≠ -1 then
    let entry := self.sentASDUs.getD self.oldestSentASDU.toNat noSentASDU
    if currentTime > entry.sentTime then
      let self :=
        if entry.sentTime > currentTime then
          let clamped := self.sentASDUs.set self.oldestSentASDU.toNat
            { entry with sentTime := currentTime }
          { self with sentASDUs := clamped }
        else self
      let entry := self.sentASDUs.getD self.oldestSentASDU.toNat noSentASDU
      if currentTime - entry.sentTime ≥ self.conParameters.t1 * 1000 then
        (false, self)
      else (true, self)
    else (true, self)
  else (true, self)

/-- handleTimeouts: the three timer paragraphs in source order. wres3 and
wres2 are the writeToSocket results for the TESTFR_ACT and the S frame.
Returns timeoutsOk, the updated connection and the emitted frames. -/
def handleTimeouts (self : MasterConnection) (currentTime : Nat)
    (wres3 wres2 : Int) : Bool × MasterConnection × List (List Nat) :=
  let r3 := handleTimeoutsT3 self currentTime wres3
  let r2 := handleTimeoutsT2 r3.2.1 currentTime wres2
  let r1 := handleTimeoutsT1 r2.1 currentTime
  (r3.1 && r1.1, r1.2, r3.2.2 ++ r2.2)

/-- Result of one Socket_read / TLSSocket_read call: an error, or a chunk
of bytes whose length never exceeds the requested count. -/
inductive ReadResult where
  | rerr
  | rdata (bs : List Nat)
  deriving Repr, DecidableEq

/-- readFromSocket modelled over a read oracle: each call consumes one
ReadResult. An exhausted oracle behaves like a socket with no data
available (read returns 0). The returned Int is the read count, -1 on
error; the byte chunk is truncated to the requested length. -/
def readFromSocket (ors : List ReadResult) (n : Nat) :
    (Int × List Nat) × List ReadResult :=
  match ors with
  | [] => ((0, []), [])
  | ReadResult.rerr :: rest => ((-1, []), rest)
  | ReadResult.rdata bs :: rest =>
    let bs := bs.take n
    ((Int.ofNat bs.length, bs), rest)

/-- Write of a byte chunk into the receive buffer at a position. -/
def writeBytes (buf : Nat → Nat) (pos : Nat) : List Nat → (Nat → Nat)
  | [] => buf
  | b :: rest => writeBytes (Function.update buf pos b) (pos + 1) rest

/-- Remainder stage of receiveMessage (the bufPos > 1 block): reads the
remaining length - bufPos + 2 bytes. -/
def receiveMessageRest (self : MasterConnection) (buffer : Nat → Nat)
    (bufPos : Nat) (ors : List ReadResult) :
    Int × MasterConnection × List ReadResult :=
  let length := buffer 1
  let remainingLength : Int := (length : Int) - (bufPos : Int) + 2
  let r := readFromSocket ors remainingLength.toNat
  let readCnt := r.1.1
  let buffer := writeBytes buffer bufPos r.1.2
  let ors := r.2
  if readCnt = remainingLength then
    ((length : Int) + 2,
     { self with recvBuffer := buffer, recvBufPos := 0 }, ors)
  else if readCnt = -1 then
    (-1, { self with recvBuffer := buffer, recvBufPos := 0 }, ors)
  else
    (0, { self with recvBuffer := buffer,
                    recvBufPos := bufPos + readCnt.toNat }, ors)

/-- receiveMessage: three-stage accumulation of one APDU (start byte,
length byte, remainder) over the read oracle. Returns the value the C
function returns (-1 on error or bad start byte, 0 when no complete
message is available, length + 2 when one is), the updated connection and
the remaining oracle. -/
def receiveMessage (self : MasterConnection) (ors : List ReadResult) :
    Int × MasterConnection × List ReadResult :=
  let buffer := self.recvBuffer
  let bufPos := self.recvBufPos
  if bufPos = 0 then
    let r := readFromSocket ors 1
    let readFirst := r.1.1
    let buffer := writeBytes buffer 0 r.1.2
    let ors := r.2
    if readFirst < 1 then
      (readFirst, { self with recvBuffer := buffer }, ors)
    else if buffer 0 ≠ 0x68 then
      (-1, { self with recvBuffer := buffer }, ors)
    else
      let r2 := readFromSocket ors 1
      let buffer := writeBytes buffer 1 r2.1.2
      let ors := r2.2
      if r2.1.1 ≠ 1 then
        (-1, { self with recvBuffer := buffer, recvBufPos := 0 }, ors)
      else
        receiveMessageRest self buffer 2 ors
  else if bufPos = 1 then
    let r2 := readFromSocket ors 1
    let buffer := writeBytes buffer 1 r2.1.2
    let ors := r2.2
    if r2.1.1 ≠ 1 then
      (-1, { self with recvBuffer := buffer, recvBufPos := 0 }, ors)
    else
      receiveMessageRest self buffer 2 ors
  else
    receiveMessageRest self buffer bufPos ors

/-- MasterConnection_deactivate restricted to its effect on the
connection; the connection event handler call is external. -/
def MasterConnection_deactivate (self : MasterConnection) :
    MasterConnection :=
  { self with isActive := false }

/-- MasterConnection_activate restricted to its effect on the connection;
the connection event handler call is external. -/
def MasterConnection_activate (self : MasterConnection) :
    MasterConnection :=
  { self with isActive := true }

/-- handleMessage. buffer holds the received APDU, msgSize its length.
wres is the writeToSocket result used by whichever branch writes a
response frame (each branch writes at most once). handleASDUf models the
external ASDU decode and dispatch of the active I-frame path
(CS101_ASDU_createFromBuffer plus handleASDU): it returns the validity
flag and the connection as updated by the handlers. The STARTDT branch
calls CS104_Slave_activate in the C code; its effect on the receiving
connection itself is activation, and the deactivation of the other
connections of the slave is modelled separately at the slave level.
Returns the validity flag of the C function and the updated connection. -/
def handleMessage (self : MasterConnection) (buffer : Nat → Nat)
    (msgSize : Nat) (wres : Int)
    (handleASDUf : MasterConnection → Bool × MasterConnection)
    (currentTime : Nat) : Bool × MasterConnection :=
  if msgSize ≥ 3 then
    if buffer 0 ≠ 0x68 then (false, self)
    else if buffer 1 ≠ msgSize - 2 then (false, self)
    else if buffer 2 &&& 1 = 0 then
      if msgSize < 7 then (false, self)
      else
        let self :=
          if self.timeoutT2Triggered = false then
            { self with timeoutT2Triggered := true,
                        lastConfirmationTime := currentTime }
          else self
        let frameSendSequenceNumber := (buffer 3 * 0x100 + (buffer 2 &&& 0xfe)) / 2
        let frameRecvSequenceNumber := (buffer 5 * 0x100 + (buffer 4 &&& 0xfe)) / 2
        if frameSendSequenceNumber ≠ self.receiveCount then (false, self)
        else
          let chk := checkSequenceNumber self (frameRecvSequenceNumber : Int)
          let self := chk.2.1
          if chk.1 = false then (false, self)
          else
            let self := { self with
              receiveCount := (self.receiveCount + 1) % 32768,
              unconfirmedReceivedIMessages :=
                self.unconfirmedReceivedIMessages + 1 }
            if self.isActive then
              let h := handleASDUf self
              let self := h.2
              if h.1 = false then (false, self)
              else (true, resetT3Timeout self currentTime)
            else (true, resetT3Timeout self currentTime)
    else if buffer 2 &&& 0x43 = 0x43 then
      if wres < 0 then (false, self)
      else (true, resetT3Timeout self currentTime)
    else if buffer 2 &&& 0x07 = 0x07 then
      let self := MasterConnection_activate self
      let self := { self with highPrioQueue :=
        HighPriorityASDUQueue_resetConnectionQueue self.highPrioQueue }
      if wres < 0 then (false, self)
      else (true, resetT3Timeout self currentTime)
    else if buffer 2 &&& 0x13 = 0x13 then
      let self := MasterConnection_deactivate self
      if wres < 0 then (false, self)
      else (true, resetT3Timeout self currentTime)
    else if buffer 2 &&& 0x83 = 0x83 then
      let self := { self with outstandingTestFRConMessages := 0 }
      (true, resetT3Timeout self currentTime)
    else if buffer 2 = 0x01 then
      let seqNo := (buffer 4 + buffer 5 * 0x100) / 2
      let chk := checkSequenceNumber self (seqNo : Int)
      let self := chk.2.1
      if chk.1 = false then (false, self)
      else (true, resetT3Timeout self currentTime)
    else (true, self)
  else (false, self)

/-- Receive block of one iteration of connectionHandlingThread: one
receiveMessage, then handleMessage (a false result clears isRunning), then
the w-threshold check that answers a batch of received I frames with one S
frame. wres is the write result for the handleMessage branch response,
wres2 the one for the S frame; currentTime stands for both
Hal_getTimeInMs() calls of the block. Returns the updated connection and
the frames emitted by the w-threshold check. -/
def connectionTickReceive (self : MasterConnection) (ors : List ReadResult)
    (handleASDUf : MasterConnection → Bool × MasterConnection)
    (wres wres2 : Int) (currentTime : Nat) :
    MasterConnection × List (List Nat) :=
  let r := receiveMessage self ors
  let bytesRec := r.1
  let self := r.2.1
  if bytesRec > 0 then
    let h := handleMessage self self.recvBuffer bytesRec.toNat wres
      handleASDUf currentTime
    let self := h.2
    let self := if h.1 = false then { self with isRunning := false } else self
    if self.unconfirmedReceivedIMessages ≥ self.conParameters.w then
      let self := { self with lastConfirmationTime := currentTime,
                              unconfirmedReceivedIMessages := 0,
                              timeoutT2Triggered := false }
      let s := sendSMessage self wres2
      (s.1, [s.2])
    else (self, [])
  else (self, [])

/-- Timeout block of one iteration of connectionHandlingThread: a false
handleTimeouts result clears isRunning. -/
def connectionTickTimeouts (self : MasterConnection) (currentTime : Nat)
    (wres3 wres2 : Int) : MasterConnection × List (List Nat) :=
  let r := handleTimeouts self currentTime wres3 wres2
  (if r.1 = false then { r.2.1 with isRunning := false } else r.2.1, r.2.2)

/-- Server modes, enum CS104_ServerMode. -/
inductive CS104_ServerMode where
  | SINGLE_REDUNDANCY_GROUP
  | CONNECTION_IS_REDUNDANCY_GROUP
  | MULTIPLE_REDUNDANCY_GROUPS
  deriving Repr, DecidableEq

/-- Server state, struct sCS104_Slave, restricted to the fields the
claims need. The masterConnections array is a list of optional slots;
the C code identifies a connection by its pointer, which the model
renders as the index of its slot. -/
structure CS104_Slave where
  serverMode : CS104_ServerMode
  openConnections : Int
  masterConnections : List (Option MasterConnection)

/-- Loop of the SINGLE_REDUNDANCY_GROUP branch of CS104_Slave_activate:
deactivate every present connection other than the one at slot t. The
index argument i tracks the position of the list head. -/
def deactivateOthers (t : Nat) :
    Nat → List (Option MasterConnection) → List (Option MasterConnection)
  | _, [] => []
  | i, oc :: rest =>
    (match oc with
     | some con =>
       if i ≠ t then some (MasterConnection_deactivate con) else some con
     | none => none) :: deactivateOthers t (i + 1) rest

/-- Loop of the MULTIPLE_REDUNDANCY_GROUPS branch of CS104_Slave_activate:
deactivate every present connection of the redundancy group g other than
the one at slot t. -/
def deactivateGroupOthers (g : Nat) (t : Nat) :
    Nat → List (Option MasterConnection) → List (Option MasterConnection)
  | _, [] => []
  | i, oc :: rest =>
    (match oc with
     | some con =>
       if con.redundancyGroup = g then
         if i ≠ t then some (MasterConnection_deactivate con) else some con
       else some con
     | none => none) :: deactivateGroupOthers g t (i + 1) rest

/-- Application of a connection update to the slot at index t, used for
the final MasterConnection_activate call of CS104_Slave_activate and for
the slot updates of CS104_Slave_removeConnection. -/
def updateSlot (f : MasterConnection → MasterConnection) (t : Nat) :
    Nat → List (Option MasterConnection) → List (Option MasterConnection)
  | _, [] => []
  | i, oc :: rest =>
    (if i = t then oc.map f else oc) :: updateSlot f t (i + 1) rest

/-- CS104_Slave_activate: in SINGLE_REDUNDANCY_GROUP mode deactivate all
other connections, in MULTIPLE_REDUNDANCY_GROUPS mode deactivate all
other connections of the redundancy group of the target, then activate
the target. The target connection is identified by its slot index t. -/
def CS104_Slave_activate (self : CS104_Slave) (t : Nat) : CS104_Slave :=
  let conns :=
    match self.serverMode with
    | CS104_ServerMode.SINGLE_REDUNDANCY_GROUP =>
      deactivateOthers t 0 self.masterConnections
    | CS104_ServerMode.MULTIPLE_REDUNDANCY_GROUPS =>
      match self.masterConnections.getD t none with
      | some target =>
        deactivateGroupOthers target.redundancyGroup t 0 self.masterConnections
      | none => self.masterConnections
    | CS104_ServerMode.CONNECTION_IS_REDUNDANCY_GROUP =>
      self.masterConnections
  { self with masterConnections :=
      updateSlot MasterConnection_activate t 0 conns }

/-- CS104_Slave_removeConnection: decrement openConnections, clear isUsed
of the slot, and, when the removed connection was active, run
MessageQueue_setWaitingForTransmissionWhenNotConfirmed on its bound
low-priority queue. -/
def CS104_Slave_removeConnection (self : CS104_Slave) (t : Nat) :
    CS104_Slave :=
  let removal : MasterConnection → MasterConnection := fun con =>
    let con := { con with isUsed := false }
    if con.isActive then
      let reverted :=
        MessageQueue_setWaitingForTransmissionWhenNotConfirmed con.lowPrioQueue
      { con with lowPrioQueue := reverted }
    else con
  { self with openConnections := self.openConnections - 1,
              masterConnections := updateSlot removal t 0 self.masterConnections }

/-- Entry of the k-buffer at logical position i, counting from
oldestSentASDU and wrapping at maxSentASDUs. -/
def kbufEntry (self : MasterConnection) (i : Nat) : SentASDUSlave :=
  self.sentASDUs.getD
    (((self.oldestSentASDU + (i : Int)) % (self.maxSentASDUs : Int)).toNat)
    noSentASDU

/-- Well-formedness of a non-empty k-buffer: n in-flight entries whose
sequence numbers are consecutive modulo 32768 starting at oldSeq, stored
consecutively modulo maxSentASDUs starting at oldestSentASDU. Every state
reachable by the send path satisfies this. -/
structure KBufWF (self : MasterConnection) (n oldSeq : Nat) : Prop where
  maxPos : 0 < self.maxSentASDUs
  maxLt : self.maxSentASDUs < 32768
  len : self.sentASDUs.length = self.maxSentASDUs
  oldNonneg : 0 ≤ self.oldestSentASDU
  oldLt : self.oldestSentASDU < (self.maxSentASDUs : Int)
  newEq : self.newestSentASDU =
    (self.oldestSentASDU + (n : Int) - 1) % (self.maxSentASDUs : Int)
  nPos : 1 ≤ n
  nLe : n ≤ self.maxSentASDUs
  seqEq : ∀ i < n, (kbufEntry self i).seqNo = (((oldSeq + i) % 32768 : Nat) : Int)
  oldSeqLt : oldSeq < 32768

/-- Confirmation calls the specification expects for the cnt k-buffer
entries at logical positions j, j+1, ..., j+cnt-1: each entry with a
non-null queueEntry handle contributes its handle and entry time. -/
def confirmSlice (self : MasterConnection) : Nat → Nat → List (Nat × Nat)
  | _, 0 => []
  | j, cnt + 1 =>
    (match (kbufEntry self j).queueEntry with
     | some q => [(q, (kbufEntry self j).entryTime)]
     | none => []) ++ confirmSlice self (j + 1) cnt

/-- Queue with a default (all-confirmed) store, used as a base for
concrete test states. -/
def emptyQueue : MessageQueue :=
  ⟨272, 0, 0, 0, 0, 0, fun _ => ⟨0, QueueEntryState.NOT_USED_OR_CONFIRMED, 0⟩⟩

/-- Queue holding exactly one entry, at offset 0, in state
SENT_BUT_NOT_CONFIRMED with timestamp 100 and payload size 10. -/
def sentOnlyQueue : MessageQueue :=
  ⟨272, 1, 0, 0, 0, 100,
   fun _ => ⟨100, QueueEntryState.SENT_BUT_NOT_CONFIRMED, 10⟩⟩

/-- Freshly initialised connection used as the base of concrete test
states. -/
def baseCon : MasterConnection :=
  { isUsed := true, isActive := false, isRunning := true,
    timeoutT2Triggered := false, outstandingTestFRConMessages := 0,
    maxSentASDUs := 12, oldestSentASDU := -1, newestSentASDU := -1,
    sendCount := 0, receiveCount := 0, unconfirmedReceivedIMessages := 0,
    lastConfirmationTime := UINT64_MAX, nextT3Timeout := 0,
    sentASDUs := List.replicate 12 noSentASDU,
    recvBuffer := fun _ => 0, recvBufPos := 0,
    lowPrioQueue := emptyQueue,
    highPrioQueue := ⟨262, 0, 0, 0, 0⟩,
    redundancyGroup := 0,
    conParameters := defaultConnectionParameters }

/-- Connection whose oldest sent I frame carries a sentTime lying in the
future (6000) relative to the test time 1000: the clock-regression test
state for the T1 paragraph of handleTimeouts. The other timers are
quiescent at time 1000. -/
def conC9 : MasterConnection :=
  { baseCon with
    oldestSentASDU := 0, newestSentASDU := 0,
    sentASDUs := ⟨0, none, 6000, 0⟩ :: List.replicate 11 noSentASDU,
    nextT3Timeout := 2000 }

/-- Slave in SINGLE_REDUNDANCY_GROUP mode with two open connections, both
active: test state for the activation exclusivity claim. -/
def slaveTwoActive : CS104_Slave :=
  ⟨CS104_ServerMode.SINGLE_REDUNDANCY_GROUP, 2,
   [some { baseCon with isActive := true },
    some { baseCon with isActive := true }]⟩

/-- Connection with w parameter lowered to 1, so that a single received I
frame reaches the S frame threshold. -/
def conW1 : MasterConnection :=
  { baseCon with conParameters := { defaultConnectionParameters with w := 1 } }

/-- Read oracle delivering one complete 7-byte I frame with N(S) = 0 and
N(R) = 0 in three chunks: start byte, length byte, remainder. -/
def orsIFrame : List ReadResult :=
  [ReadResult.rdata [0x68], ReadResult.rdata [5],
   ReadResult.rdata [0, 0, 0, 0, 0xAA]]

/- Theorems. Helper lemmas come first; each claim of the specification
review is settled by exactly one theorem named after the claim. -/

theorem markAsduAsConfirmed_id (self : MessageQueue) (q t : Nat) :
    MessageQueue_markAsduAsConfirmed self q t = self := by
  unfold MessageQueue_markAsduAsConfirmed
  split
  · split <;> rfl
  · rfl

theorem revertWalk_id (self : MessageQueue) :
    ∀ fuel ptr, MessageQueue_revertWalk self fuel ptr = self
  | 0, _ => rfl
  | fuel + 1, ptr => by
    unfold MessageQueue_revertWalk
    dsimp only
    split
    · rfl
    · exact revertWalk_id self fuel _

theorem setWaiting_id (self : MessageQueue) :
    MessageQueue_setWaitingForTransmissionWhenNotConfirmed self = self := by
  unfold MessageQueue_setWaitingForTransmissionWhenNotConfirmed
  split
  · exact revertWalk_id self _ _
  · rfl

/-- C1: the claim states that removing an active connection flips every
SENT_BUT_NOT_CONFIRMED entry of its low-priority queue back to
WAITING_FOR_TRANSMISSION in the backing store, so that a later
next-waiting call returns those entries again. The code disagrees:
MessageQueue_setWaitingForTransmissionWhenNotConfirmed only updates a
local copy of each entry header and never writes it back, so after
CS104_Slave_removeConnection of an active connection whose queue holds
one SENT_BUT_NOT_CONFIRMED entry, the entry is still
SENT_BUT_NOT_CONFIRMED and MessageQueue_getNextWaitingASDU returns
nothing. -/
theorem C1_remove_active_connection_does_not_revert :
    (((CS104_Slave_removeConnection
        ⟨CS104_ServerMode.SINGLE_REDUNDANCY_GROUP, 1,
         [some { baseCon with isActive := true,
                              lowPrioQueue := sentOnlyQueue }]⟩
        0).masterConnections.getD 0 none).elim emptyQueue
          (fun c => c.lowPrioQueue)) = sentOnlyQueue ∧
    (sentOnlyQueue.store 0).entryState =
      QueueEntryState.SENT_BUT_NOT_CONFIRMED ∧
    (MessageQueue_getNextWaitingASDU sentOnlyQueue).1 = none := by
  refine ⟨?_, rfl, ?_⟩
  · simp [CS104_Slave_removeConnection, updateSlot, setWaiting_id]
  · rfl

/-- C2: the claim states that mark-confirmed on a non-empty queue with a
fresh-enough timestamp sets the designated entry state to
NOT_USED_OR_CONFIRMED in the backing store. The code disagrees:
MessageQueue_markAsduAsConfirmed only updates a local copy of the entry
header and never writes it back, so on a non-empty queue whose entry at
offset 0 is SENT_BUT_NOT_CONFIRMED, a call with timestamp equal to
oldestTimestamp leaves the queue unchanged and the entry state is still
SENT_BUT_NOT_CONFIRMED. -/
theorem C2_markAsduAsConfirmed_does_not_confirm :
    MessageQueue_markAsduAsConfirmed sentOnlyQueue 0 100 = sentOnlyQueue ∧
    ((MessageQueue_markAsduAsConfirmed sentOnlyQueue 0 100).store 0).entryState
      = QueueEntryState.SENT_BUT_NOT_CONFIRMED ∧
    sentOnlyQueue.entryCounter > 0 ∧
    100 ≥ sentOnlyQueue.oldestTimestamp := by
  refine ⟨markAsduAsConfirmed_id _ _ _, ?_, by decide, by decide⟩
  rw [markAsduAsConfirmed_id]
  rfl

/-- C10: sendIMessage resets unconfirmedReceivedIMessages to 0 whatever
the write result; only a successful write (result greater than 0)
increments sendCount modulo 32768 and clears timeoutT2Triggered, and a
failed write clears isRunning while leaving sendCount and
timeoutT2Triggered untouched. -/
theorem C10_sendIMessage_counters (self : MasterConnection)
    (payload : List Nat) (msgSize : Nat) (wres : Int) :
    (sendIMessage self payload msgSize wres).1.unconfirmedReceivedIMessages
      = 0 ∧
    (wres > 0 →
      (sendIMessage self payload msgSize wres).1.sendCount
        = (self.sendCount + 1) % 32768 ∧
      (sendIMessage self payload msgSize wres).1.timeoutT2Triggered = false ∧
      (sendIMessage self payload msgSize wres).1.isRunning = self.isRunning) ∧
    (¬ wres > 0 →
      (sendIMessage self payload msgSize wres).1.isRunning = false ∧
      (sendIMessage self payload msgSize wres).1.sendCount = self.sendCount ∧
      (sendIMessage self payload msgSize wres).1.timeoutT2Triggered
        = self.timeoutT2Triggered) := by
  unfold sendIMessage
  by_cases h : wres > 0 <;> simp [h]

/-- C10 witness: the conclusions of C10_sendIMessage_counters evaluated on
the freshly initialised connection for one successful and one failed
write. -/
theorem C10_sendIMessage_counters_witness :
    ((1 : Int) > 0 ∧
      (sendIMessage baseCon [] 6 1).1.sendCount
        = (baseCon.sendCount + 1) % 32768) ∧
    (¬ ((-1 : Int) > 0) ∧
      (sendIMessage baseCon [] 6 (-1)).1.isRunning = false) :=
  ⟨⟨by decide, ((C10_sendIMessage_counters baseCon [] 6 1).2.1 (by decide)).1⟩,
   ⟨by decide, ((C10_sendIMessage_counters baseCon [] 6 (-1)).2.2 (by decide)).1⟩⟩

/-- C9: the claim states that during timeout handling every stored
timestamp lying strictly in the future is clamped to now in place; in
particular sentASDUs[oldestSentASDU].sentTime for T1. The code disagrees:
the T1 clamp is nested inside the test currentTime > sentTime and is
therefore unreachable, so a connection whose oldest sent time is 6000 at
current time 1000 keeps sentTime 6000 after handleTimeouts (no close
happens either: handleTimeouts still reports success). -/
theorem C9_t1_future_sentTime_not_clamped :
    (conC9.sentASDUs.getD 0 noSentASDU).sentTime > 1000 ∧
    ((handleTimeouts conC9 1000 0 0).2.1.sentASDUs.getD 0
        noSentASDU).sentTime = 6000 ∧
    (handleTimeouts conC9 1000 0 0).1 = true ∧
    (handleTimeouts conC9 1000 0 0).2.1.isRunning = true := by
  refine ⟨by decide, ?_, ?_, ?_⟩ <;> rfl

theorem handleTimeoutsT2_preserves (self : MasterConnection) (now : Nat)
    (wres : Int) :
    (handleTimeoutsT2 self now wres).1.outstandingTestFRConMessages
      = self.outstandingTestFRConMessages ∧
    (handleTimeoutsT2 self now wres).1.nextT3Timeout = self.nextT3Timeout := by
  unfold handleTimeoutsT2 sendSMessage
  constructor
  all_goals
    simp only [apply_ite Prod.fst,
      apply_ite MasterConnection.outstandingTestFRConMessages,
      apply_ite MasterConnection.nextT3Timeout]
    simp

theorem handleTimeoutsT1_preserves (self : MasterConnection) (now : Nat) :
    (handleTimeoutsT1 self now).2.outstandingTestFRConMessages
      = self.outstandingTestFRConMessages ∧
    (handleTimeoutsT1 self now).2.nextT3Timeout = self.nextT3Timeout := by
  unfold handleTimeoutsT1
  constructor
  all_goals
    simp only [apply_ite Prod.snd,
      apply_ite MasterConnection.outstandingTestFRConMessages,
      apply_ite MasterConnection.nextT3Timeout]
    simp

/-- C8: on a tick with now past nextT3Timeout, more than two outstanding
TESTFR_ACT messages make handleTimeouts report failure and the caller
block clears isRunning (the connection closes); otherwise a TESTFR_ACT
frame is emitted first, outstandingTestFRConMessages is incremented and
nextT3Timeout becomes now + t3 * 1000 — so after three unanswered
TESTFR_ACT frames the next expiry closes the connection. -/
theorem C8_t3_expiry (self : MasterConnection) (now : Nat)
    (wres3 wres2 : Int) (hexp : now > self.nextT3Timeout) :
    (self.outstandingTestFRConMessages > 2 →
      (handleTimeouts self now wres3 wres2).1 = false ∧
      (connectionTickTimeouts self now wres3 wres2).1.isRunning = false) ∧
    (¬ self.outstandingTestFRConMessages > 2 →
      (handleTimeouts self now wres3 wres2).2.2.head? = some TESTFR_ACT_MSG ∧
      (handleTimeouts self now wres3 wres2).2.1.outstandingTestFRConMessages
        = self.outstandingTestFRConMessages + 1 ∧
      (handleTimeouts self now wres3 wres2).2.1.nextT3Timeout
        = now + self.conParameters.t3 * 1000) := by
  have hclamp : ¬ self.nextT3Timeout > now + self.conParameters.t3 * 1000 := by
    omega
  have hc : checkT3Timeout self now = (true, self) := by
    unfold checkT3Timeout
    rw [if_neg hclamp]
    simp [hexp]
  constructor
  · intro hout
    have h3 : handleTimeoutsT3 self now wres3 = (false, self, []) := by
      unfold handleTimeoutsT3
      rw [hc]
      simp [hout]
    constructor
    · unfold handleTimeouts
      rw [h3]
      simp
    · unfold connectionTickTimeouts handleTimeouts
      rw [h3]
      simp
  · intro hout
    have h3ok :
        (handleTimeoutsT3 self now wres3).2.2 = [TESTFR_ACT_MSG] ∧
        (handleTimeoutsT3 self now wres3).2.1.outstandingTestFRConMessages
          = self.outstandingTestFRConMessages + 1 ∧
        (handleTimeoutsT3 self now wres3).2.1.nextT3Timeout
          = now + self.conParameters.t3 * 1000 := by
      simp only [handleTimeoutsT3, hc, if_neg hout, resetT3Timeout]
      refine ⟨rfl, ?_, ?_⟩ <;>
        simp [apply_ite MasterConnection.outstandingTestFRConMessages,
              apply_ite MasterConnection.conParameters]
    refine ⟨?_, ?_, ?_⟩
    · simp only [handleTimeouts]
      rw [h3ok.1]
      rfl
    · simp only [handleTimeouts]
      rw [(handleTimeoutsT1_preserves _ _).1,
        (handleTimeoutsT2_preserves _ _ _).1, h3ok.2.1]
    · simp only [handleTimeouts]
      rw [(handleTimeoutsT1_preserves _ _).2,
        (handleTimeoutsT2_preserves _ _ _).2, h3ok.2.2]

/-- C8 witness: the two branches of C8_t3_expiry evaluated at time 1 on
the fresh connection (nextT3Timeout 0, no outstanding TESTFR_ACT) and on
a connection with three outstanding TESTFR_ACT messages. -/
theorem C8_t3_expiry_witness :
    ((1 : Nat) >
        ({ baseCon with outstandingTestFRConMessages := 3 }
          : MasterConnection).nextT3Timeout ∧
      (handleTimeouts { baseCon with outstandingTestFRConMessages := 3 }
        1 0 0).1 = false) ∧
    ((1 : Nat) > baseCon.nextT3Timeout ∧
      (handleTimeouts baseCon 1 0 0).2.2.head? = some TESTFR_ACT_MSG) :=
  ⟨⟨by decide,
    ((C8_t3_expiry { baseCon with outstandingTestFRConMessages := 3 }
      1 0 0 (by decide)).1 (by decide)).1⟩,
   ⟨by decide,
    ((C8_t3_expiry baseCon 1 0 0 (by decide)).2 (by decide)).1⟩⟩

theorem updateSlot_getD (f : MasterConnection → MasterConnection) (t : Nat) :
    ∀ (l : List (Option MasterConnection)) (i j : Nat),
      (updateSlot f t i l).getD j none =
        if i + j = t then (l.getD j none).map f else l.getD j none
  | [], i, j => by
    simp [updateSlot]
  | oc :: rest, i, 0 => by
    simp [updateSlot]
  | oc :: rest, i, j + 1 => by
    have ih := updateSlot_getD f t rest (i + 1) j
    simp only [updateSlot, List.getD_cons_succ, ih]
    have : i + 1 + j = i + (j + 1) := by omega
    rw [this]

theorem deactivateOthers_getD (t : Nat) :
    ∀ (l : List (Option MasterConnection)) (i j : Nat),
      (deactivateOthers t i l).getD j none =
        (l.getD j none).map
          (fun c => if i + j ≠ t then MasterConnection_deactivate c else c)
  | [], i, j => by
    simp [deactivateOthers]
  | none :: rest, i, 0 => by
    simp [deactivateOthers]
  | some c :: rest, i, 0 => by
    simp only [deactivateOthers, List.getD_cons_zero, Option.map_some']
    split <;> simp_all
  | oc :: rest, i, j + 1 => by
    have ih := deactivateOthers_getD t rest (i + 1) j
    simp only [deactivateOthers, List.getD_cons_succ, ih]
    have : i + 1 + j = i + (j + 1) := by omega
    rw [this]

theorem deactivateGroupOthers_getD (g t : Nat) :
    ∀ (l : List (Option MasterConnection)) (i j : Nat),
      (deactivateGroupOthers g t i l).getD j none =
        (l.getD j none).map
          (fun c =>
            if c.redundancyGroup = g then
              if i + j ≠ t then MasterConnection_deactivate c else c
            else c)
  | [], i, j => by
    simp [deactivateGroupOthers]
  | none :: rest, i, 0 => by
    simp [deactivateGroupOthers]
  | some c :: rest, i, 0 => by
    simp only [deactivateGroupOthers, List.getD_cons_zero, Option.map_some']
    split <;> [skip; rfl]
    split <;> simp_all
  | oc :: rest, i, j + 1 => by
    have ih := deactivateGroupOthers_getD g t rest (i + 1) j
    simp only [deactivateGroupOthers, List.getD_cons_succ, ih]
    have : i + 1 + j = i + (j + 1) := by omega
    rw [this]

/-- C5: CS104_Slave_activate deactivates, before activating the target,
every other connection in the applicable scope — all of them in
SINGLE_REDUNDANCY_GROUP mode, those of the redundancy group of the target
in MULTIPLE_REDUNDANCY_GROUPS mode (connections of other groups keeping
their state) — so that afterwards at most one connection of the scope has
isActive set. -/
theorem C5_activation_exclusivity (slave : CS104_Slave) (t : Nat)
    (con : MasterConnection)
    (hcon : slave.masterConnections.getD t none = some con) :
    (slave.serverMode = CS104_ServerMode.SINGLE_REDUNDANCY_GROUP →
      (CS104_Slave_activate slave t).masterConnections.getD t none
        = some (MasterConnection_activate con) ∧
      (∀ i ci, i ≠ t →
        (CS104_Slave_activate slave t).masterConnections.getD i none
          = some ci → ci.isActive = false) ∧
      (∀ i j ci cj,
        (CS104_Slave_activate slave t).masterConnections.getD i none
          = some ci → ci.isActive = true →
        (CS104_Slave_activate slave t).masterConnections.getD j none
          = some cj → cj.isActive = true → i = j)) ∧
    (slave.serverMode = CS104_ServerMode.MULTIPLE_REDUNDANCY_GROUPS →
      (CS104_Slave_activate slave t).masterConnections.getD t none
        = some (MasterConnection_activate con) ∧
      (∀ i ci, i ≠ t →
        (CS104_Slave_activate slave t).masterConnections.getD i none
          = some ci → ci.redundancyGroup = con.redundancyGroup →
        ci.isActive = false) ∧
      (∀ i j ci cj,
        (CS104_Slave_activate slave t).masterConnections.getD i none
          = some ci → ci.isActive = true →
        ci.redundancyGroup = con.redundancyGroup →
        (CS104_Slave_activate slave t).masterConnections.getD j none
          = some cj → cj.isActive = true →
        cj.redundancyGroup = con.redundancyGroup → i = j) ∧
      (∀ i ci, slave.masterConnections.getD i none = some ci →
        ci.redundancyGroup ≠ con.redundancyGroup →
        (CS104_Slave_activate slave t).masterConnections.getD i none
          = some ci)) := by
  constructor
  · intro hmode
    have hgd : ∀ j, (CS104_Slave_activate slave t).masterConnections.getD j none
        = if j = t then
            ((slave.masterConnections.getD j none).map
              (fun c => if 0 + j ≠ t then MasterConnection_deactivate c else c)).map
              MasterConnection_activate
          else
            (slave.masterConnections.getD j none).map
              (fun c => if 0 + j ≠ t then MasterConnection_deactivate c else c) := by
      intro j
      simp only [CS104_Slave_activate, hmode]
      rw [updateSlot_getD, deactivateOthers_getD]
      simp only [Nat.zero_add]
    have htgt : (CS104_Slave_activate slave t).masterConnections.getD t none
        = some (MasterConnection_activate con) := by
      rw [hgd t, if_pos rfl, hcon]
      simp only [Option.map_some']
      rw [if_neg (show ¬ 0 + t ≠ t by omega)]
    have hoff : ∀ i ci, i ≠ t →
        (CS104_Slave_activate slave t).masterConnections.getD i none
          = some ci → ci.isActive = false := by
      intro i ci hne hci
      rw [hgd i, if_neg hne] at hci
      rcases hx : slave.masterConnections.getD i none with _ | c
      · rw [hx] at hci; simp at hci
      · rw [hx] at hci
        simp only [Option.map_some'] at hci
        rw [if_pos (by omega)] at hci
        cases hci
        rfl
    refine ⟨htgt, hoff, ?_⟩
    intro i j ci cj hci hai hcj haj
    by_contra hne
    rcases eq_or_ne i t with hit | hit
    · have hjt : j ≠ t := by omega
      have hfalse := hoff j cj hjt hcj
      rw [hfalse] at haj
      cases haj
    · have hfalse := hoff i ci hit hci
      rw [hfalse] at hai
      cases hai
  · intro hmode
    have hgd : ∀ j, (CS104_Slave_activate slave t).masterConnections.getD j none
        = if j = t then
            ((slave.masterConnections.getD j none).map
              (fun c => if c.redundancyGroup = con.redundancyGroup then
                  if 0 + j ≠ t then MasterConnection_deactivate c else c
                else c)).map MasterConnection_activate
          else
            (slave.masterConnections.getD j none).map
              (fun c => if c.redundancyGroup = con.redundancyGroup then
                  if 0 + j ≠ t then MasterConnection_deactivate c else c
                else c) := by
      intro j
      simp only [CS104_Slave_activate, hmode, hcon]
      rw [updateSlot_getD, deactivateGroupOthers_getD]
      simp only [Nat.zero_add]
    have htgt : (CS104_Slave_activate slave t).masterConnections.getD t none
        = some (MasterConnection_activate con) := by
      rw [hgd t, if_pos rfl, hcon]
      simp only [Option.map_some']
      congr 2
      split
      · rw [if_neg (show ¬ 0 + t ≠ t by omega)]
      · rfl
    have hoff : ∀ i ci, i ≠ t →
        (CS104_Slave_activate slave t).masterConnections.getD i none
          = some ci → ci.redundancyGroup = con.redundancyGroup →
        ci.isActive = false := by
      intro i ci hne hci hgrp
      rw [hgd i, if_neg hne] at hci
      rcases hx : slave.masterConnections.getD i none with _ | c
      · rw [hx] at hci; simp at hci
      · rw [hx] at hci
        simp only [Option.map_some'] at hci
        by_cases hg : c.redundancyGroup = con.redundancyGroup
        · rw [if_pos hg, if_pos (by omega)] at hci
          cases hci
          rfl
        · rw [if_neg hg] at hci
          cases hci
          exact absurd hgrp hg
    refine ⟨htgt, hoff, ?_, ?_⟩
    · intro i j ci cj hci hai hgi hcj haj hgj
      by_contra hne
      rcases eq_or_ne i t with hit | hit
      · have hjt : j ≠ t := by omega
        have hfalse := hoff j cj hjt hcj hgj
        rw [hfalse] at haj
        cases haj
      · have hfalse := hoff i ci hit hci hgi
        rw [hfalse] at hai
        cases hai
    · intro i ci hci hgrp
      rcases eq_or_ne i t with hit | hit
      · subst hit
        rw [hcon] at hci
        cases hci
        exact absurd rfl hgrp
      · rw [hgd i, if_neg hit, hci]
        simp only [Option.map_some']
        rw [if_neg hgrp]

/-- C5 witness: activating slot 0 of a two-connection single-group slave
with both peers active leaves slot 0 active and slot 1 deactivated. -/
theorem C5_activation_exclusivity_witness :
    (slaveTwoActive.masterConnections.getD 0 none
       = some { baseCon with isActive := true } ∧
     (CS104_Slave_activate slaveTwoActive 0).masterConnections.getD 0 none
       = some (MasterConnection_activate { baseCon with isActive := true })) ∧
    ((1 : Nat) ≠ 0 ∧
     (MasterConnection_deactivate
        { baseCon with isActive := true }).isActive = false) :=
  ⟨⟨rfl,
    ((C5_activation_exclusivity slaveTwoActive 0
        { baseCon with isActive := true } rfl).1 rfl).1⟩,
   ⟨by decide,
    ((C5_activation_exclusivity slaveTwoActive 0
        { baseCon with isActive := true } rfl).1 rfl).2.1 1
      (MasterConnection_deactivate { baseCon with isActive := true })
      (by decide) rfl⟩⟩

theorem one_le_succ_of_nonneg {x : Int} (h : 0 ≤ x) : 1 ≤ x + 1 := by
  omega

theorem evictLoop_store (e n t : Nat) :
    ∀ fuel self,
      (MessageQueue_evictLoop e n t fuel self).store = self.store
  | 0, self => rfl
  | fuel + 1, self => by
    unfold MessageQueue_evictLoop
    dsimp only
    split
    · split
      · split
        · exact evictLoop_store e n t fuel _
        · rfl
      · exact evictLoop_store e n t fuel _
    · rfl

theorem evictLoop_counter_nonneg (e n t : Nat) :
    ∀ fuel self, 0 ≤ self.entryCounter →
      0 ≤ (MessageQueue_evictLoop e n t fuel self).entryCounter
  | 0, _ => fun h => h
  | fuel + 1, self => fun _ => by
    unfold MessageQueue_evictLoop
    dsimp only
    split
    case isTrue hcond =>
      split
      · split
        · exact evictLoop_counter_nonneg e n t fuel _ (by dsimp only; omega)
        · dsimp only
          omega
      · exact evictLoop_counter_nonneg e n t fuel _ (by dsimp only; omega)
    case isFalse hcond =>
      omega

/-- C6: for every ASDU that fits one frame (encoded size at most 249),
MessageQueue_enqueueASDU never takes the rejection path: it returns true,
the new entry is written at the final lastEntry cursor in state
WAITING_FOR_TRANSMISSION with the enqueue timestamp and the given size,
the entry lies entirely inside the buffer, and entryCounter is at least 1
afterwards. Eviction only moves the cursors (the store is untouched until
the new entry is written), so entries are evicted independently of their
state, SENT_BUT_NOT_CONFIRMED included. -/
theorem C6_enqueueASDU_total (self : MessageQueue) (asduSize now : Nat)
    (hsz : asduSize ≤ 249) (hbuf : 272 ≤ self.size)
    (hctr : 0 ≤ self.entryCounter) :
    (MessageQueue_enqueueASDU self asduSize now).1 = true ∧
    1 ≤ (MessageQueue_enqueueASDU self asduSize now).2.entryCounter ∧
    (MessageQueue_enqueueASDU self asduSize now).2.store
        (MessageQueue_enqueueASDU self asduSize now).2.lastEntry
      = ⟨now, QueueEntryState.WAITING_FOR_TRANSMISSION, asduSize⟩ ∧
    (MessageQueue_enqueueASDU self asduSize now).2.lastEntry
        + sizeofEntryInfo + asduSize ≤ self.size := by
  have h16 : sizeofEntryInfo = 16 := rfl
  have hna : ¬ asduSize > 256 - IEC60870_5_104_APCI_LENGTH := by
    simp only [IEC60870_5_104_APCI_LENGTH]
    omega
  unfold MessageQueue_enqueueASDU
  rw [if_neg hna]
  dsimp only
  split_ifs
  all_goals refine ⟨rfl, ?_, by simp [Function.update_same], ?_⟩
  all_goals try dsimp only at *
  all_goals
    first
    | omega
    | exact one_le_succ_of_nonneg
        (evictLoop_counter_nonneg _ _ _ _ _ (by (try dsimp only); omega))

/-- C6 witness: enqueueing a 10-byte ASDU at time 50 into the empty
272-byte queue succeeds and leaves at least one entry. -/
theorem C6_enqueueASDU_total_witness :
    ((10 : Nat) ≤ 249 ∧ 272 ≤ emptyQueue.size ∧ 0 ≤ emptyQueue.entryCounter) ∧
    (MessageQueue_enqueueASDU emptyQueue 10 50).1 = true ∧
    1 ≤ (MessageQueue_enqueueASDU emptyQueue 10 50).2.entryCounter :=
  ⟨⟨by decide, by decide, by decide⟩,
   (C6_enqueueASDU_total emptyQueue 10 50 (by decide) (by decide) (by decide)).1,
   (C6_enqueueASDU_total emptyQueue 10 50 (by decide) (by decide)
     (by decide)).2.1⟩

/-- C4: in the receive block, after a completed APDU is handled, reaching
the w threshold of unconfirmed received I messages emits exactly one S
frame carrying the current receiveCount — bytes 68 04 01 00, then
(receiveCount mod 128) * 2 and receiveCount / 128 — and resets the
counter to 0 and clears timeoutT2Triggered; below the threshold nothing
is emitted and the state is exactly the one handleMessage produced. The
intermediate states are named by the defining equations hr, hh and hst. -/
theorem C4_w_threshold (self : MasterConnection) (ors : List ReadResult)
    (handleASDUf : MasterConnection → Bool × MasterConnection)
    (wres wres2 : Int) (now : Nat)
    (bytesRec : Int) (self1 : MasterConnection) (ors1 : List ReadResult)
    (ok : Bool) (self2 st1 : MasterConnection)
    (hr : receiveMessage self ors = (bytesRec, self1, ors1))
    (hpos : bytesRec > 0)
    (hh : handleMessage self1 self1.recvBuffer bytesRec.toNat wres
        handleASDUf now = (ok, self2))
    (hst : st1 = if ok = false then { self2 with isRunning := false }
                 else self2) :
    (st1.unconfirmedReceivedIMessages ≥ st1.conParameters.w →
      (connectionTickReceive self ors handleASDUf wres wres2 now).2
        = [[0x68, 0x04, 0x01, 0, (st1.receiveCount % 128) * 2,
            st1.receiveCount / 128]] ∧
      (connectionTickReceive self ors handleASDUf wres wres2
          now).1.unconfirmedReceivedIMessages = 0 ∧
      (connectionTickReceive self ors handleASDUf wres wres2
          now).1.timeoutT2Triggered = false) ∧
    (¬ st1.unconfirmedReceivedIMessages ≥ st1.conParameters.w →
      (connectionTickReceive self ors handleASDUf wres wres2 now).2 = [] ∧
      (connectionTickReceive self ors handleASDUf wres wres2 now).1
        = st1) := by
  have hbase : connectionTickReceive self ors handleASDUf wres wres2 now
      = if st1.unconfirmedReceivedIMessages ≥ st1.conParameters.w then
          (let stz := { st1 with
            lastConfirmationTime := now,
            unconfirmedReceivedIMessages := 0,
            timeoutT2Triggered := false }
           ((sendSMessage stz wres2).1, [(sendSMessage stz wres2).2]))
        else (st1, []) := by
    unfold connectionTickReceive
    rw [hr]
    dsimp only
    rw [if_pos hpos, hh]
    try dsimp only
    rw [← hst]
  constructor
  · intro hw
    rw [hbase, if_pos hw]
    try dsimp only
    refine ⟨?_, ?_, ?_⟩
    · rfl
    · simp only [sendSMessage]
      try dsimp only
      split <;> rfl
    · simp only [sendSMessage]
      try dsimp only
      split <;> rfl
  · intro hw
    rw [hbase, if_neg hw]
    exact ⟨rfl, rfl⟩

/-- C4 witness: with w = 1, receiving one complete I frame makes the
receive block emit exactly the S frame 68 04 01 00 02 00 (receiveCount 1)
and zero the unconfirmed counter. -/
theorem C4_w_threshold_witness :
    (receiveMessage conW1 orsIFrame).1 > 0 ∧
    (connectionTickReceive conW1 orsIFrame (fun c => (true, c)) 1 1 500).2
      = [[0x68, 0x04, 0x01, 0, 2, 0]] ∧
    (connectionTickReceive conW1 orsIFrame (fun c => (true, c)) 1 1
        500).1.unconfirmedReceivedIMessages = 0 := by
  have happ := C4_w_threshold conW1 orsIFrame (fun c => (true, c)) 1 1 500
    7 _ _ _ _ _ rfl (by decide) rfl rfl
  refine ⟨by decide, ?_, (happ.1 (by decide)).2.1⟩
  have h1 := (happ.1 (by decide)).1
  rw [h1]
  rfl

theorem writeBytes_nil (buf : Nat → Nat) (p : Nat) :
    writeBytes buf p [] = buf := rfl

theorem writeBytes_cons (buf : Nat → Nat) (p b : Nat) (bs : List Nat) :
    writeBytes buf p (b :: bs)
      = writeBytes (Function.update buf p b) (p + 1) bs := rfl

theorem readFromSocket_err (rest : List ReadResult) (n : Nat) :
    readFromSocket (ReadResult.rerr :: rest) n = ((-1, []), rest) := rfl

theorem readFromSocket_data (bs : List Nat) (rest : List ReadResult)
    (n : Nat) :
    readFromSocket (ReadResult.rdata bs :: rest) n
      = ((Int.ofNat (bs.take n).length, bs.take n), rest) := rfl

theorem writeBytes_get_lt (i : Nat) :
    ∀ (bs : List Nat) (buf : Nat → Nat) (p : Nat), i < p →
      writeBytes buf p bs i = buf i
  | [], _, _, _ => rfl
  | b :: bs, buf, p, h => by
    have ih := writeBytes_get_lt i bs (Function.update buf p b) (p + 1)
      (Nat.lt_succ_of_lt h)
    rw [writeBytes_cons, ih]
    exact Function.update_noteq (Nat.ne_of_lt h) b buf

/-- C7 counterexample: the claim says receiveMessage returns 0 whenever a
complete APDU is not yet available and -1 only on a read error or a wrong
start byte. On a fresh connection whose socket delivers the valid start
byte 0x68 and then no further byte in this invocation (a partial frame,
no error), receiveMessage returns -1, not 0. -/
theorem C7_counterexample_length_stage_short_read :
    (receiveMessage baseCon
      [ReadResult.rdata [0x68], ReadResult.rdata []]).1 = -1 ∧
    ((-1 : Int) ≠ 0) := by
  refine ⟨?_, by decide⟩
  rfl

/-- C7 amended: receiveMessage accumulates bytes in three stages and, for
every sequence of partial socket reads, returns -1 on a read error, on a
wrong start byte, or — the amendment — on any read of the length-byte
stage that does not deliver exactly one byte (such a short read is
treated as an error and resets recvBufPos); it returns length + 2 exactly
when the frame completes, and 0 with recvBufPos preserving the
accumulated progress in the start-byte and remainder stages, so that a
partial remainder is resumed by the next invocation. -/
theorem C7_receiveMessage_stages (self : MasterConnection)
    (h0 : self.recvBufPos = 0) :
    (∀ rest, (receiveMessage self (ReadResult.rerr :: rest)).1 = -1) ∧
    (∀ rest b, b ≠ 0x68 →
      (receiveMessage self (ReadResult.rdata [b] :: rest)).1 = -1) ∧
    (∀ rest, (receiveMessage self (ReadResult.rdata [] :: rest)).1 = 0 ∧
      (receiveMessage self
        (ReadResult.rdata [] :: rest)).2.1.recvBufPos = 0) ∧
    (∀ rest,
      (receiveMessage self
        (ReadResult.rdata [0x68] :: ReadResult.rdata [] :: rest)).1 = -1 ∧
      (receiveMessage self
        (ReadResult.rdata [0x68] :: ReadResult.rdata []
          :: rest)).2.1.recvBufPos = 0 ∧
      (receiveMessage self
        (ReadResult.rdata [0x68] :: ReadResult.rerr :: rest)).1 = -1) ∧
    (∀ rest (L : Nat) (payload : List Nat), payload.length = L →
      (receiveMessage self
        (ReadResult.rdata [0x68] :: ReadResult.rdata [L]
          :: ReadResult.rdata payload :: rest)).1 = (L : Int) + 2 ∧
      (receiveMessage self
        (ReadResult.rdata [0x68] :: ReadResult.rdata [L]
          :: ReadResult.rdata payload :: rest)).2.1.recvBufPos = 0) ∧
    (∀ rest rest2 (L k : Nat) (payload1 payload2 : List Nat),
      payload1.length = k → k < L → payload2.length = L - k →
      (receiveMessage self
        (ReadResult.rdata [0x68] :: ReadResult.rdata [L]
          :: ReadResult.rdata payload1 :: rest)).1 = 0 ∧
      (receiveMessage self
        (ReadResult.rdata [0x68] :: ReadResult.rdata [L]
          :: ReadResult.rdata payload1 :: rest)).2.1.recvBufPos = 2 + k ∧
      (receiveMessage
        (receiveMessage self
          (ReadResult.rdata [0x68] :: ReadResult.rdata [L]
            :: ReadResult.rdata payload1 :: rest)).2.1
        (ReadResult.rdata payload2 :: rest2)).1 = (L : Int) + 2) := by
  have htake1 : ∀ x : Nat, List.take 1 [x] = [x] := fun _ => rfl
  have hstage12 : ∀ (L : Nat) (tail : List ReadResult),
      receiveMessage self
          (ReadResult.rdata [0x68] :: ReadResult.rdata [L] :: tail)
        = receiveMessageRest self
            (Function.update (Function.update self.recvBuffer 0 0x68) 1 L)
            2 tail := by
    intro L tail
    simp [receiveMessage, readFromSocket_data, writeBytes_cons,
      writeBytes_nil, h0, Function.update_same, htake1]
  refine ⟨?_, ?_, ?_, ?_, ?_, ?_⟩
  · intro rest
    simp [receiveMessage, readFromSocket_err, writeBytes_nil, h0]
  · intro rest b hb
    simp [receiveMessage, readFromSocket_data, writeBytes_cons,
      writeBytes_nil, h0, Function.update_same, htake1, hb]
  · intro rest
    constructor
    · simp [receiveMessage, readFromSocket_data, writeBytes_nil, h0]
    · simp [receiveMessage, readFromSocket_data, writeBytes_nil, h0]
  · intro rest
    refine ⟨?_, ?_, ?_⟩
    · simp [receiveMessage, readFromSocket_data, readFromSocket_err,
        writeBytes_cons, writeBytes_nil, h0, Function.update_same, htake1]
    · simp [receiveMessage, readFromSocket_data, readFromSocket_err,
        writeBytes_cons, writeBytes_nil, h0, Function.update_same, htake1]
    · simp [receiveMessage, readFromSocket_data, readFromSocket_err,
        writeBytes_cons, writeBytes_nil, h0, Function.update_same, htake1]
  · intro rest L payload hL
    rw [hstage12]
    unfold receiveMessageRest
    simp only [readFromSocket_data, Function.update_same, Nat.cast_ofNat]
    have hrem : ((L : Int) - 2 + 2) = (L : Int) := by omega
    rw [hrem]
    have htake : payload.take (L : Int).toNat = payload := by
      refine List.take_of_length_le ?_
      omega
    rw [htake]
    have heq : Int.ofNat payload.length = (L : Int) := by
      simp [hL]
    rw [if_pos heq]
    exact ⟨rfl, rfl⟩
  · intro rest rest2 L k payload1 payload2 h1 hk h2
    have hfirst :
        receiveMessage self
            (ReadResult.rdata [0x68] :: ReadResult.rdata [L]
              :: ReadResult.rdata payload1 :: rest)
          = (0,
             { self with
                recvBuffer := writeBytes
                  (Function.update (Function.update self.recvBuffer 0 0x68)
                    1 L) 2 payload1,
                recvBufPos := 2 + k }, rest) := by
      rw [hstage12]
      unfold receiveMessageRest
      simp only [readFromSocket_data, Function.update_same, Nat.cast_ofNat]
      have hrem : ((L : Int) - 2 + 2) = (L : Int) := by omega
      rw [hrem]
      have htake : payload1.take (L : Int).toNat = payload1 := by
        refine List.take_of_length_le ?_
        omega
      rw [htake]
      have hne : ¬ (Int.ofNat payload1.length = (L : Int)) := by
        simp only [Int.ofNat_eq_natCast, h1]
        omega
      rw [if_neg hne]
      have hne2 : ¬ (Int.ofNat payload1.length = (-1 : Int)) := by
        simp
      rw [if_neg hne2]
      have hpos : (Int.ofNat payload1.length).toNat = k := by
        simp [h1]
      rw [hpos]
    refine ⟨by rw [hfirst], by rw [hfirst], ?_⟩
    rw [hfirst]
    have hb1 : (writeBytes
        (Function.update (Function.update self.recvBuffer 0 0x68) 1 L)
        2 payload1) 1 = L := by
      rw [writeBytes_get_lt 1 payload1 _ 2 (by omega)]
      exact Function.update_same _ _ _
    unfold receiveMessage
    rw [if_neg (by (try dsimp only); omega),
      if_neg (by (try dsimp only); omega)]
    unfold receiveMessageRest
    simp only [readFromSocket_data, hb1]
    have hrem : ((L : Int) - (((2 + k : Nat)) : Int) + 2)
        = ((L - k : Nat) : Int) := by
      omega
    rw [hrem]
    have htake : payload2.take ((L - k : Nat) : Int).toNat = payload2 := by
      refine List.take_of_length_le ?_
      omega
    rw [htake]
    have heq : Int.ofNat payload2.length = ((L - k : Nat) : Int) := by
      simp [h2]
    rw [if_pos heq]

/-- C7 witness: on the fresh connection, a frame with length byte 1
delivered as three chunks completes and receiveMessage returns 1 + 2. -/
theorem C7_receiveMessage_stages_witness :
    (baseCon.recvBufPos = 0 ∧ ([7] : List Nat).length = 1) ∧
    (receiveMessage baseCon
      [ReadResult.rdata [0x68], ReadResult.rdata [1],
       ReadResult.rdata [7]]).1 = (1 : Int) + 2 :=
  ⟨⟨rfl, rfl⟩,
   ((C7_receiveMessage_stages baseCon rfl).2.2.2.2.1 [] 1 [7] rfl).1⟩

theorem natIdx_cast (o : Int) (M j : Nat) (ho : 0 ≤ o) :
    (o + (j : Int)) % (M : Int) = (((o.toNat + j) % M : Nat) : Int) := by
  rw [Int.ofNat_emod]
  congr 1
  push_cast [Int.toNat_of_nonneg ho]
  ring

theorem succ_mod (x M : Nat) : (x % M + 1) % M = (x + 1) % M := by
  conv_rhs => rw [Nat.add_mod]
  rcases Nat.lt_or_ge 1 M with h | h
  · rw [Nat.mod_eq_of_lt h]
  · rcases Nat.eq_zero_or_pos M with h0 | h0
    · subst h0
      rfl
    · have hM1 : M = 1 := by omega
      subst hM1
      simp

theorem succ_mod_cast (x M : Nat) :
    ((((x % M : Nat) : Int) + 1) % (M : Int))
      = (((x + 1) % M : Nat) : Int) := by
  have h1 : (((x % M : Nat) : Int) + 1) = (((x % M + 1 : Nat)) : Int) := by
    push_cast
    ring
  rw [h1, ← Int.ofNat_emod, succ_mod]

theorem add_mod_inj (c a b m : Nat) (ha : a < m) (hb : b < m) :
    (c + a) % m = (c + b) % m ↔ a = b := by
  constructor
  · intro h
    have h2 : a ≡ b [MOD m] := Nat.ModEq.add_left_cancel' c h
    rwa [Nat.ModEq, Nat.mod_eq_of_lt ha, Nat.mod_eq_of_lt hb] at h2
  · intro h
    rw [h]

theorem add_mod_ne_of_lt (c a b m : Nat) (hab : a < b) (hbm : b ≤ m)
    (ha : 1 ≤ a) : (c + a) % m ≠ (c + b) % m := by
  intro h
  have h2 : a ≡ b [MOD m] := Nat.ModEq.add_left_cancel' c h
  have hd : (m : Int) ∣ (b : Int) - (a : Int) := (Nat.modEq_iff_dvd).mp h2
  have hle := Int.le_of_dvd (by omega) hd
  omega

theorem conn_mark_eta (st : MasterConnection) (q e : Nat) :
    ({ st with lowPrioQueue :=
        MessageQueue_markAsduAsConfirmed st.lowPrioQueue q e }) = st := by
  rw [markAsduAsConfirmed_id]

theorem kbufEntry_eq_getD (self : MasterConnection) (j : Nat)
    (ho : 0 ≤ self.oldestSentASDU) :
    kbufEntry self j = self.sentASDUs.getD
      ((self.oldestSentASDU.toNat + j) % self.maxSentASDUs) noSentASDU := by
  unfold kbufEntry
  rw [natIdx_cast _ _ _ ho, Int.toNat_natCast]

theorem confirmSlice_succ (self : MasterConnection) (j cnt : Nat) :
    confirmSlice self j (cnt + 1)
      = (match (kbufEntry self j).queueEntry with
         | some q => [(q, (kbufEntry self j).entryTime)]
         | none => []) ++ confirmSlice self (j + 1) cnt := rfl

theorem checkSeqNoLoop_consume (self : MasterConnection) (n S : Nat)
    (hwf : KBufWF self n S) (d : Nat) (hd : d < n) (ovf : Bool)
    (hovf : ovf = false → S + n ≤ 32768) :
    ∀ (fuel j : Nat) (st : MasterConnection) (acc : List (Nat × Nat)),
      j ≤ d → d - j < fuel →
      st.sentASDUs = self.sentASDUs →
      st.maxSentASDUs = self.maxSentASDUs →
      st.newestSentASDU = self.newestSentASDU →
      st.oldestSentASDU =
        (((self.oldestSentASDU.toNat + j) % self.maxSentASDUs : Nat) : Int) →
      checkSeqNoLoop (((S + d) % 32768 : Nat) : Int)
          (((S + 32767) % 32768 : Nat) : Int) ovf fuel st acc
        = ({ st with oldestSentASDU :=
              if d + 1 = n then (-1 : Int)
              else (((self.oldestSentASDU.toNat + d + 1)
                      % self.maxSentASDUs : Nat) : Int) },
           acc ++ confirmSlice self j (d + 1 - j))
  | 0, j, st, acc, hj, hfuel, _, _, _, _ => absurd hfuel (by omega)
  | fuel + 1, j, st, acc, hj, hfuel, hsent, hmax, hnew, hold => by
    have hfields := hwf
    obtain ⟨hmaxPos, hmlt, hlen, honn, holt, hnewEq, hnpos, hnle, hseq,
      hSlt⟩ := hfields
    have hoNlt : self.oldestSentASDU.toNat < self.maxSentASDUs := by omega
    have hoNj : st.oldestSentASDU.toNat
        = (self.oldestSentASDU.toNat + j) % self.maxSentASDUs := by
      rw [hold, Int.toNat_natCast]
    have hentry : st.sentASDUs.getD st.oldestSentASDU.toNat noSentASDU
        = kbufEntry self j := by
      rw [hsent, hoNj, kbufEntry_eq_getD self j honn]
    have hseqj := hseq j (by omega)
    have hc1 : ¬(ovf = false ∧
        (((S + d) % 32768 : Nat) : Int) < (kbufEntry self j).seqNo) := by
      rintro ⟨hov, hlt⟩
      have hna := hovf hov
      rw [hseqj, Nat.mod_eq_of_lt (show S + d < 32768 by omega),
        Nat.mod_eq_of_lt (show S + j < 32768 by omega)] at hlt
      exact absurd (Nat.cast_lt.mp hlt) (by omega)
    have hc2 : ¬((((S + d) % 32768 : Nat) : Int)
        = (((S + 32767) % 32768 : Nat) : Int)) := by
      intro h
      have h2 : (S + d) % 32768 = (S + 32767) % 32768 := Nat.cast_inj.mp h
      have h3 := (add_mod_inj S d 32767 32768 (by omega) (by omega)).mp h2
      omega
    have hnewNat : st.newestSentASDU =
        (((self.oldestSentASDU.toNat + (n - 1)) % self.maxSentASDUs : Nat)
          : Int) := by
      rw [hnew, hnewEq]
      have hcast : self.oldestSentASDU + (n : Int) - 1
          = (((self.oldestSentASDU.toNat + (n - 1) : Nat)) : Int) := by
        omega
      rw [hcast, Int.ofNat_emod]
    simp only [checkSeqNoLoop]
    rw [hentry]
    rw [if_neg hc1, if_neg hc2]
    rcases Nat.lt_or_ge j d with hlt | hge
    · have hc3 : ¬((kbufEntry self j).seqNo
          = (((S + d) % 32768 : Nat) : Int)) := by
        rw [hseqj]
        intro h
        have h2 : (S + j) % 32768 = (S + d) % 32768 := Nat.cast_inj.mp h
        have h3 := (add_mod_inj S j d 32768 (by omega) (by omega)).mp h2
        omega
      have hadv : (st.oldestSentASDU + 1) % (st.maxSentASDUs : Int)
          = (((self.oldestSentASDU.toNat + (j + 1))
              % self.maxSentASDUs : Nat) : Int) := by
        rw [hold, hmax, succ_mod_cast, Nat.add_assoc]
      have hchk : (st.newestSentASDU + 1) % (st.maxSentASDUs : Int)
          = (((self.oldestSentASDU.toNat + n)
              % self.maxSentASDUs : Nat) : Int) := by
        rw [hnewNat, hmax, succ_mod_cast]
        congr 2
        omega
      have hne : ¬((((self.oldestSentASDU.toNat + (j + 1))
            % self.maxSentASDUs : Nat) : Int)
          = (((self.oldestSentASDU.toNat + n)
              % self.maxSentASDUs : Nat) : Int)) := by
        intro h
        exact add_mod_ne_of_lt self.oldestSentASDU.toNat (j + 1) n
          self.maxSentASDUs (by omega) (by omega) (by omega)
          (Nat.cast_inj.mp h)
      have ih := checkSeqNoLoop_consume self n S hwf d hd ovf hovf fuel
      rcases hq : (kbufEntry self j).queueEntry with _ | q
      all_goals
        simp only [hq]
        try rw [markAsduAsConfirmed_id]
        rw [if_neg hc3]
        try dsimp only
        rw [hadv]
        rw [show ({ st with oldestSentASDU :=
              (((self.oldestSentASDU.toNat + (j + 1))
                % self.maxSentASDUs : Nat) : Int) } :
            MasterConnection).newestSentASDU + 1 = st.newestSentASDU + 1
          from rfl]
      · rw [show ({ st with oldestSentASDU :=
              (((self.oldestSentASDU.toNat + (j + 1))
                % self.maxSentASDUs : Nat) : Int) } :
            MasterConnection).maxSentASDUs = st.maxSentASDUs from rfl,
          hchk]
        rw [if_neg (by (try dsimp only); exact hne)]
        rw [ih (j + 1)
          ({ st with oldestSentASDU :=
              (((self.oldestSentASDU.toNat + (j + 1))
                % self.maxSentASDUs : Nat) : Int) })
          acc (by omega) (by omega) hsent hmax hnew rfl]
        have hsl : confirmSlice self j (d + 1 - j)
            = confirmSlice self (j + 1) (d - j) := by
          rw [show d + 1 - j = (d - j) + 1 from by omega,
            confirmSlice_succ, hq]
          rfl
        rw [show d + 1 - (j + 1) = d - j from by omega, hsl]
      · rw [show ({ st with oldestSentASDU :=
              (((self.oldestSentASDU.toNat + (j + 1))
                % self.maxSentASDUs : Nat) : Int) } :
            MasterConnection).maxSentASDUs = st.maxSentASDUs from rfl,
          hchk]
        rw [if_neg (by (try dsimp only); exact hne)]
        rw [ih (j + 1)
          ({ st with oldestSentASDU :=
              (((self.oldestSentASDU.toNat + (j + 1))
                % self.maxSentASDUs : Nat) : Int) })
          (acc ++ [(q, (kbufEntry self j).entryTime)])
          (by omega) (by omega) hsent hmax hnew rfl]
        have hsl : confirmSlice self j (d + 1 - j)
            = (q, (kbufEntry self j).entryTime)
                :: confirmSlice self (j + 1) (d - j) := by
          rw [show d + 1 - j = (d - j) + 1 from by omega,
            confirmSlice_succ, hq]
          rfl
        rw [show d + 1 - (j + 1) = d - j from by omega, hsl,
          List.append_assoc]
        rfl
    · have hjd : j = d := by omega
      subst hjd
      have hc3 : (kbufEntry self j).seqNo
          = (((S + j) % 32768 : Nat) : Int) := hseqj
      rcases hq : (kbufEntry self j).queueEntry with _ | q
      all_goals simp only [hq]
      all_goals try rw [markAsduAsConfirmed_id]
      all_goals rw [if_pos hc3]
      all_goals by_cases hj1 : j + 1 = n
      · rw [if_pos (by
            rw [hold, hnewNat]
            have hx : self.oldestSentASDU.toNat + j
                = self.oldestSentASDU.toNat + (n - 1) := by omega
            rw [hx]),
          if_pos hj1]
        have hsl : confirmSlice self j (j + 1 - j) = [] := by
          rw [show j + 1 - j = 0 + 1 from by omega, confirmSlice_succ, hq]
          rfl
        rw [hsl]
        simp
      · rw [if_neg (by
            rw [hold, hnewNat]
            intro h
            have h2 := Nat.cast_inj.mp h
            have h3 := (add_mod_inj self.oldestSentASDU.toNat j (n - 1)
              self.maxSentASDUs (by omega) (by omega)).mp h2
            omega),
          if_neg hj1]
        rw [hold, hmax, succ_mod_cast]
        have hsl : confirmSlice self j (j + 1 - j) = [] := by
          rw [show j + 1 - j = 0 + 1 from by omega, confirmSlice_succ, hq]
          rfl
        rw [hsl]
        simp only [List.append_nil]
      · rw [if_pos (by
            rw [hold, hnewNat]
            have hx : self.oldestSentASDU.toNat + j
                = self.oldestSentASDU.toNat + (n - 1) := by omega
            rw [hx]),
          if_pos hj1]
        have hsl : confirmSlice self j (j + 1 - j)
            = [(q, (kbufEntry self j).entryTime)] := by
          rw [show j + 1 - j = 0 + 1 from by omega, confirmSlice_succ, hq]
          rfl
        rw [hsl]
      · rw [if_neg (by
            rw [hold, hnewNat]
            intro h
            have h2 := Nat.cast_inj.mp h
            have h3 := (add_mod_inj self.oldestSentASDU.toNat j (n - 1)
              self.maxSentASDUs (by omega) (by omega)).mp h2
            omega),
          if_neg hj1]
        rw [hold, hmax, succ_mod_cast]
        have hsl : confirmSlice self j (j + 1 - j)
            = [(q, (kbufEntry self j).entryTime)] := by
          rw [show j + 1 - j = 0 + 1 from by omega, confirmSlice_succ, hq]
          rfl
        rw [hsl]

theorem kbuf_getD_old (self : MasterConnection) (n S : Nat)
    (hwf : KBufWF self n S) :
    self.sentASDUs.getD self.oldestSentASDU.toNat noSentASDU
      = kbufEntry self 0 := by
  have hfields := hwf
  obtain ⟨hmaxPos, hmlt, hlen, honn, holt, hnewEq, hnpos, hnle, hseq,
    hSlt⟩ := hfields
  unfold kbufEntry
  have h0 : self.oldestSentASDU + (((0 : Nat)) : Int)
      = self.oldestSentASDU := by
    simp
  rw [h0, Int.emod_eq_of_lt honn holt]

theorem kbuf_getD_new (self : MasterConnection) (n S : Nat)
    (hwf : KBufWF self n S) :
    self.sentASDUs.getD self.newestSentASDU.toNat noSentASDU
      = kbufEntry self (n - 1) := by
  have hfields := hwf
  obtain ⟨hmaxPos, hmlt, hlen, honn, holt, hnewEq, hnpos, hnle, hseq,
    hSlt⟩ := hfields
  unfold kbufEntry
  have hidx : (self.oldestSentASDU + (((n - 1 : Nat)) : Int))
        % (self.maxSentASDUs : Int)
      = self.newestSentASDU := by
    rw [hnewEq]
    congr 1
    rw [Nat.cast_sub hnpos, Nat.cast_one]
    ring
  rw [hidx]

theorem oldestValid_eval (S : Nat) (hS : S < 32768) :
    (if ((S : Nat) : Int) = 0 then (32767 : Int)
     else (((S : Nat) : Int) - 1) % 32768)
      = (((S + 32767) % 32768 : Nat) : Int) := by
  split_ifs with h0
  · have hS0 : S = 0 := by exact_mod_cast h0
    subst hS0
    decide
  · have h1 : 1 ≤ S := by
      rcases Nat.eq_zero_or_pos S with h | h
      · subst h
        simp at h0
      · exact h
    have hcast : ((S : Nat) : Int) - 1 = (((S - 1 : Nat)) : Int) := by
      omega
    have hmod : (S + 32767) % 32768 = S - 1 := by omega
    rw [hcast, hmod, Int.emod_eq_of_lt (by omega) (by omega)]

theorem checkSeq_empty (c : MasterConnection) (q : Int)
    (h : c.oldestSentASDU = -1) :
    checkSequenceNumber c q = (decide (q = (c.sendCount : Int)), c, []) := by
  unfold checkSequenceNumber
  rw [if_pos h]
  by_cases hq : q = (c.sendCount : Int)
  · rw [if_pos hq, decide_eq_true hq]
  · rw [if_neg hq, decide_eq_false hq]

theorem checkSeq_invalid (self : MasterConnection) (q : Int)
    (h : (checkSequenceNumber self q).1 = false) :
    checkSequenceNumber self q = (false, self, []) := by
  unfold checkSequenceNumber at h ⊢
  (try dsimp only at h ⊢)
  split_ifs at h ⊢ <;> first | rfl | simp at h

theorem checkSeq_valid_iff (self : MasterConnection) (q : Int)
    (hne : self.oldestSentASDU ≠ -1) :
    ((checkSequenceNumber self q).1 = true ↔
      (((self.sentASDUs.getD self.oldestSentASDU.toNat noSentASDU).seqNo
          ≤ (self.sentASDUs.getD self.newestSentASDU.toNat noSentASDU).seqNo
        ∧ (self.sentASDUs.getD self.oldestSentASDU.toNat noSentASDU).seqNo
            ≤ q
        ∧ q ≤ (self.sentASDUs.getD self.newestSentASDU.toNat
                noSentASDU).seqNo)
       ∨ ((self.sentASDUs.getD self.newestSentASDU.toNat noSentASDU).seqNo
            < (self.sentASDUs.getD self.oldestSentASDU.toNat
                noSentASDU).seqNo
          ∧ (q ≥ (self.sentASDUs.getD self.oldestSentASDU.toNat
                    noSentASDU).seqNo
             ∨ q ≤ (self.sentASDUs.getD self.newestSentASDU.toNat
                      noSentASDU).seqNo))
       ∨ q = ((self.sentASDUs.getD self.oldestSentASDU.toNat
                noSentASDU).seqNo - 1) % 32768)) := by
  unfold checkSequenceNumber
  rw [if_neg hne]
  (try dsimp only)
  set o := (self.sentASDUs.getD self.oldestSentASDU.toNat noSentASDU).seqNo
    with ho
  set w := (self.sentASDUs.getD self.newestSentASDU.toNat noSentASDU).seqNo
    with hw
  have hov : (if o = 0 then (32767 : Int) else (o - 1) % 32768)
      = (o - 1) % 32768 := by
    split_ifs with h0
    · rw [h0]
      decide
    · rfl
  rw [hov]
  rcases le_or_lt o w with h1 | h1
  · rw [if_pos h1]
    (try dsimp only)
    split_ifs with h2
    · simp only [Bool.or_eq_true, decide_eq_true_eq] at h2
      refine iff_of_true rfl ?_
      rcases h2 with h2 | h2
      · exact Or.inl ⟨h1, h2.1, h2.2⟩
      · exact Or.inr (Or.inr h2.symm)
    · simp only [Bool.or_eq_true, decide_eq_true_eq, not_or] at h2
      obtain ⟨hn1, hn2⟩ := h2
      refine iff_of_false (by simp) ?_
      rintro (⟨_, hb, hc⟩ | ⟨ha, _⟩ | ha)
      · exact hn1 ⟨hb, hc⟩
      · omega
      · exact hn2 ha.symm
  · rw [if_neg (not_le.mpr h1)]
    (try dsimp only)
    split_ifs with h2
    · simp only [Bool.or_eq_true, decide_eq_true_eq] at h2
      refine iff_of_true rfl ?_
      rcases h2 with h2 | h2
      · exact Or.inr (Or.inl ⟨h1, h2⟩)
      · exact Or.inr (Or.inr h2.symm)
    · simp only [Bool.or_eq_true, decide_eq_true_eq, not_or] at h2
      obtain ⟨⟨hn1a, hn1b⟩, hn2⟩ := h2
      refine iff_of_false (by simp) ?_
      rintro (⟨ha, _, _⟩ | ⟨_, hb | hb⟩ | ha)
      · omega
      · exact hn1a hb
      · exact hn1b hb
      · exact hn2 ha.symm

theorem checkSeq_ack (self : MasterConnection) (n S : Nat)
    (hwf : KBufWF self n S) (d : Nat) (hd : d < n) :
    checkSequenceNumber self (((S + d) % 32768 : Nat) : Int)
      = (true,
         { self with oldestSentASDU :=
             if d + 1 = n then (-1 : Int)
             else (((self.oldestSentASDU.toNat + d + 1)
                     % self.maxSentASDUs : Nat) : Int) },
         confirmSlice self 0 (d + 1)) := by
  have hfields := hwf
  obtain ⟨hmaxPos, hmlt, hlen, honn, holt, hnewEq, hnpos, hnle, hseq,
    hSlt⟩ := hfields
  have hne : ¬ self.oldestSentASDU = -1 := by omega
  have hoNlt : self.oldestSentASDU.toNat < self.maxSentASDUs := by omega
  have hOldSeq : (self.sentASDUs.getD self.oldestSentASDU.toNat
        noSentASDU).seqNo = ((S : Nat) : Int) := by
    rw [kbuf_getD_old self n S hwf, hseq 0 (by omega), Nat.add_zero,
      Nat.mod_eq_of_lt hSlt]
  have hNewSeq : (self.sentASDUs.getD self.newestSentASDU.toNat
        noSentASDU).seqNo = (((S + (n - 1)) % 32768 : Nat) : Int) := by
    rw [kbuf_getD_new self n S hwf, hseq (n - 1) (by omega)]
  have hold0 : self.oldestSentASDU
      = (((self.oldestSentASDU.toNat + 0) % self.maxSentASDUs : Nat)
          : Int) := by
    rw [Nat.add_zero, Nat.mod_eq_of_lt hoNlt, Int.toNat_of_nonneg honn]
  unfold checkSequenceNumber
  rw [if_neg hne]
  (try dsimp only)
  rw [hOldSeq, hNewSeq, oldestValid_eval S hSlt]
  rcases le_or_lt (S + n) 32768 with hA | hB
  · rw [if_pos (show ((S : Nat) : Int)
        ≤ (((S + (n - 1)) % 32768 : Nat) : Int) by omega)]
    (try dsimp only)
    rw [if_pos (show (decide (((S : Nat) : Int)
            ≤ (((S + d) % 32768 : Nat) : Int)
          ∧ (((S + d) % 32768 : Nat) : Int)
            ≤ (((S + (n - 1)) % 32768 : Nat) : Int))
        || decide ((((S + 32767) % 32768 : Nat) : Int)
            = (((S + d) % 32768 : Nat) : Int))) = true
      from by rw [Bool.or_eq_true]; exact Or.inl (decide_eq_true (by omega)))]
    rw [checkSeqNoLoop_consume self n S hwf d hd false (fun _ => hA)
      (self.maxSentASDUs + 1) 0 self [] (Nat.zero_le d) (by omega)
      rfl rfl rfl hold0]
    rfl
  · rw [if_neg (show ¬ (((S : Nat) : Int)
        ≤ (((S + (n - 1)) % 32768 : Nat) : Int)) by omega)]
    (try dsimp only)
    rw [if_pos (show (decide ((((S + d) % 32768 : Nat) : Int)
            ≥ ((S : Nat) : Int)
          ∨ (((S + d) % 32768 : Nat) : Int)
            ≤ (((S + (n - 1)) % 32768 : Nat) : Int))
        || decide ((((S + 32767) % 32768 : Nat) : Int)
            = (((S + d) % 32768 : Nat) : Int))) = true
      from by rw [Bool.or_eq_true]; exact Or.inl (decide_eq_true (by omega)))]
    rw [checkSeqNoLoop_consume self n S hwf d hd true
      (fun h => absurd h (by decide))
      (self.maxSentASDUs + 1) 0 self [] (Nat.zero_le d) (by omega)
      rfl rfl rfl hold0]
    rfl

theorem checkSeq_reack (self : MasterConnection) (n S : Nat)
    (hwf : KBufWF self n S) :
    checkSequenceNumber self (((S + 32767) % 32768 : Nat) : Int)
      = (true, self, []) := by
  have hfields := hwf
  obtain ⟨hmaxPos, hmlt, hlen, honn, holt, hnewEq, hnpos, hnle, hseq,
    hSlt⟩ := hfields
  have hne : ¬ self.oldestSentASDU = -1 := by omega
  have hOldSeq : (self.sentASDUs.getD self.oldestSentASDU.toNat
        noSentASDU).seqNo = ((S : Nat) : Int) := by
    rw [kbuf_getD_old self n S hwf, hseq 0 (by omega), Nat.add_zero,
      Nat.mod_eq_of_lt hSlt]
  unfold checkSequenceNumber
  rw [if_neg hne]
  (try dsimp only)
  rw [hOldSeq, oldestValid_eval S hSlt, decide_eq_true rfl, Bool.or_true,
    if_pos rfl]
  simp only [checkSeqNoLoop]
  (try dsimp only)
  by_cases hc1 : ((if ((S : Nat) : Int)
        ≤ (self.sentASDUs.getD self.newestSentASDU.toNat noSentASDU).seqNo
      then (decide (((S : Nat) : Int) ≤ (((S + 32767) % 32768 : Nat) : Int)
              ∧ (((S + 32767) % 32768 : Nat) : Int)
                ≤ (self.sentASDUs.getD self.newestSentASDU.toNat
                    noSentASDU).seqNo), false)
      else (decide ((((S + 32767) % 32768 : Nat) : Int) ≥ ((S : Nat) : Int)
              ∨ (((S + 32767) % 32768 : Nat) : Int)
                ≤ (self.sentASDUs.getD self.newestSentASDU.toNat
                    noSentASDU).seqNo), true)).2 = false
      ∧ (((S + 32767) % 32768 : Nat) : Int)
        < (self.sentASDUs.getD self.oldestSentASDU.toNat noSentASDU).seqNo)
  · rw [if_pos hc1]
  · rw [if_neg hc1, if_pos trivial]

theorem handleMessage_sframe_invalid (self : MasterConnection)
    (buffer : Nat → Nat) (msgSize : Nat) (wres : Int)
    (hA : MasterConnection → Bool × MasterConnection) (t : Nat)
    (hsz : msgSize ≥ 3) (hb0 : buffer 0 = 0x68)
    (hb1 : buffer 1 = msgSize - 2) (hb2 : buffer 2 = 0x01)
    (hchk : (checkSequenceNumber self
        ((((buffer 4 + buffer 5 * 0x100) / 2 : Nat)) : Int)).1 = false) :
    handleMessage self buffer msgSize wres hA t
      = (false, (checkSequenceNumber self
          ((((buffer 4 + buffer 5 * 0x100) / 2 : Nat)) : Int)).2.1) := by
  unfold handleMessage
  rw [if_pos hsz, if_neg (by rw [hb0]; decide),
    if_neg (by rw [hb1]; exact fun hh => hh rfl),
    if_neg (by rw [hb2]; decide), if_neg (by rw [hb2]; decide),
    if_neg (by rw [hb2]; decide), if_neg (by rw [hb2]; decide),
    if_neg (by rw [hb2]; decide), if_pos hb2]
  (try dsimp only)
  rw [if_pos hchk]

/-- Test connection for the sequence-number check: a k-buffer of capacity
3 holding 2 unconfirmed sent I frames with sequence numbers 5 and 6,
stored at positions 0 and 1, bound to queue entries at offsets 0 and 16. -/
def conC3 : MasterConnection :=
  { baseCon with
    maxSentASDUs := 3, oldestSentASDU := 0, newestSentASDU := 1,
    sendCount := 7,
    sentASDUs := [⟨11, some 0, 50, 5⟩, ⟨12, some 16, 60, 6⟩, noSentASDU] }

theorem conC3_wf : KBufWF conC3 2 5 := by
  refine ⟨by decide, by decide, by decide, by decide, by decide, by decide,
    by decide, by decide, ?_, by decide⟩
  intro i hi
  interval_cases i <;> decide

/-- C3: the sequence-number check of a received acknowledgement.
With an empty k-buffer, checkSequenceNumber accepts exactly seqNo =
sendCount and changes nothing. With a non-empty k-buffer it accepts
exactly the seqNo lying in the window between the oldest and the newest
in-flight sequence number (in both orientations of the wrapped window) or
equal to (oldest - 1) mod 32768; an invalid seqNo leaves the connection
unchanged and confirms nothing. On a well-formed k-buffer of n entries
with consecutive sequence numbers from S, acknowledging the (d+1)-st
entry confirms (via MessageQueue_markAsduAsConfirmed) exactly the bound
queue entries of positions 0..d in order, advances oldestSentASDU past
position d, and sets it to -1 when the buffer drains; re-acknowledging
(S - 1) mod 32768 is accepted without any confirmation or state change.
An S frame whose seqNo fails the check makes handleMessage return false,
upon which the caller closes the connection. -/
theorem C3_checkSequenceNumber_spec :
    (∀ (c : MasterConnection) (q : Int), c.oldestSentASDU = -1 →
       checkSequenceNumber c q = (decide (q = (c.sendCount : Int)), c, []))
    ∧ (∀ (self : MasterConnection) (q : Int),
        self.oldestSentASDU ≠ -1 →
        ((checkSequenceNumber self q).1 = true ↔
          (((self.sentASDUs.getD self.oldestSentASDU.toNat
                noSentASDU).seqNo
              ≤ (self.sentASDUs.getD self.newestSentASDU.toNat
                  noSentASDU).seqNo
            ∧ (self.sentASDUs.getD self.oldestSentASDU.toNat
                noSentASDU).seqNo ≤ q
            ∧ q ≤ (self.sentASDUs.getD self.newestSentASDU.toNat
                    noSentASDU).seqNo)
           ∨ ((self.sentASDUs.getD self.newestSentASDU.toNat
                noSentASDU).seqNo
                < (self.sentASDUs.getD self.oldestSentASDU.toNat
                    noSentASDU).seqNo
              ∧ (q ≥ (self.sentASDUs.getD self.oldestSentASDU.toNat
                        noSentASDU).seqNo
                 ∨ q ≤ (self.sentASDUs.getD self.newestSentASDU.toNat
                          noSentASDU).seqNo))
           ∨ q = ((self.sentASDUs.getD self.oldestSentASDU.toNat
                    noSentASDU).seqNo - 1) % 32768)))
    ∧ (∀ (self : MasterConnection) (q : Int),
        (checkSequenceNumber self q).1 = false →
        checkSequenceNumber self q = (false, self, []))
    ∧ (∀ (self : MasterConnection) (n S : Nat), KBufWF self n S →
        ∀ d : Nat, d < n →
        checkSequenceNumber self (((S + d) % 32768 : Nat) : Int)
          = (true,
             { self with oldestSentASDU :=
                 if d + 1 = n then (-1 : Int)
                 else (((self.oldestSentASDU.toNat + d + 1)
                         % self.maxSentASDUs : Nat) : Int) },
             confirmSlice self 0 (d + 1)))
    ∧ (∀ (self : MasterConnection) (n S : Nat), KBufWF self n S →
        checkSequenceNumber self (((S + 32767) % 32768 : Nat) : Int)
          = (true, self, []))
    ∧ (∀ (self : MasterConnection) (buffer : Nat → Nat) (msgSize : Nat)
          (wres : Int) (hA : MasterConnection → Bool × MasterConnection)
          (t : Nat),
        msgSize ≥ 3 → buffer 0 = 0x68 → buffer 1 = msgSize - 2 →
        buffer 2 = 0x01 →
        (checkSequenceNumber self
            ((((buffer 4 + buffer 5 * 0x100) / 2 : Nat)) : Int)).1
          = false →
        handleMessage self buffer msgSize wres hA t
          = (false, (checkSequenceNumber self
              ((((buffer 4 + buffer 5 * 0x100) / 2 : Nat)) : Int)).2.1)) :=
  ⟨checkSeq_empty, checkSeq_valid_iff, checkSeq_invalid, checkSeq_ack,
   checkSeq_reack, handleMessage_sframe_invalid⟩

/-- Witness: acknowledging both in-flight frames of conC3 (seqNo
(5+1) mod 32768 = 6) drains its k-buffer and confirms both bound queue
entries. -/
theorem C3_checkSequenceNumber_spec_witness :
    checkSequenceNumber conC3 (((5 + 1) % 32768 : Nat) : Int)
      = (true,
         { conC3 with oldestSentASDU :=
             if 1 + 1 = 2 then (-1 : Int)
             else (((conC3.oldestSentASDU.toNat + 1 + 1)
                     % conC3.maxSentASDUs : Nat) : Int) },
         confirmSlice conC3 0 (1 + 1)) :=
  C3_checkSequenceNumber_spec.2.2.2.1 conC3 2 5 conC3_wf 1 (by decide)

end CS104
